import Mathlib

/-!
The ngfd-plugin-pulse sink: a shallow embedding of `src/pulse.c`.

The plugin keeps one `PulsePluginPriv` record.  Code running on the caller's
thread (`pulse_plugin_priv_connect`, `pulse_plugin_priv_cache_file`,
`pulse_plugin_priv_play`) is embedded as a total function of that record and of
an environment record holding the answers of the libraries it calls (GLib,
libsndfile, libpulse).  Every library call is written to a trace, with its
result, in the order the source makes it.

The source blocks in `pa_threaded_mainloop_wait`.  While it is blocked the
PulseAudio event thread runs the callbacks of this file; the environment gives,
for each wait, the list of callbacks that run before the waiter wakes up.  A
wait for which the environment has no list left never returns: the run is then
marked `blocked` and nothing after the wait is executed.
-/

namespace NgfdPulse

/-! ## Constants of the source -/

def PULSE_KEY : String := "plugin.pulse.data"

def SOUND_FILENAME_KEY : String := "canberra.filename"

def SOUND_VOLUME_KEY : String := "sound.volume"

/-- Maximum number of queued samples before silently dropping requests. -/
def MAX_QUEUED_SAMPLES : Int := 0

/-- Lower bound of the upload size ("found through experimentation"). -/
def MINIMUM_STREAM_SIZE : Int := 2048

/-! ## Constants and types of the libraries (sndfile.h, pulse/def.h) -/

def SF_FORMAT_WAV : Nat := 0x010000

def SF_FORMAT_PCM_16 : Nat := 0x0002

def SF_FORMAT_SUBMASK : Nat := 0x0000FFFF

def SF_FORMAT_TYPEMASK : Nat := 0x0FFF0000

/-- The value `((uint32_t) -1)` of pulse/def.h. -/
def PA_INVALID_INDEX : Nat := 4294967295

inductive pa_context_state_t where
  | PA_CONTEXT_UNCONNECTED
  | PA_CONTEXT_CONNECTING
  | PA_CONTEXT_AUTHORIZING
  | PA_CONTEXT_SETTING_NAME
  | PA_CONTEXT_READY
  | PA_CONTEXT_FAILED
  | PA_CONTEXT_TERMINATED
  deriving DecidableEq, Repr

inductive pa_stream_state_t where
  | PA_STREAM_UNCONNECTED
  | PA_STREAM_CREATING
  | PA_STREAM_READY
  | PA_STREAM_FAILED
  | PA_STREAM_TERMINATED
  deriving DecidableEq, Repr

open pa_context_state_t pa_stream_state_t

/-- The fields of `SF_INFO` the source reads. `frames` is an `sf_count_t`
(signed 64 bit), the others are `int`. -/
structure SF_INFO where
  frames : Int
  samplerate : Int
  channels : Int
  format : Nat
  deriving DecidableEq, Repr

/-! ## Machine integers -/

/-- Two's-complement value of an `int` (32 bit) result. -/
def wrap_int (x : Int) : Int := (x + 2147483648) % 4294967296 - 2147483648

/-- Two's-complement value of an `sf_count_t` (64 bit) result. -/
def wrap_int64 (x : Int) : Int :=
  (x + 9223372036854775808) % 18446744073709551616 - 9223372036854775808

/-- Conversion to an unsigned type of `bits` bits (`size_t`, `uint32_t`, `uint8_t`). -/
def to_unsigned (bits : Nat) (x : Int) : Nat := (x % (2 : Int) ^ bits).toNat

/-- The macro `MAX(a, b)` of GLib: `(((a) > (b)) ? (a) : (b))`. -/
def MAX (a b : Int) : Int := if a > b then a else b

/-! ## The GLib hash table `cached_files` -/

/-- A string-to-string `GHashTable`, as the list of its entries. -/
abbrev GHashTable := List (String × String)

/-- Lookup in a table pointer: `g_hash_table_lookup`. On a NULL table GLib logs a
critical warning and returns NULL. -/
def g_hash_table_lookup (t : Option GHashTable) (key : String) : Option String :=
  match t with
  | none => none
  | some l => l.lookup key

/-- Insertion into a table pointer: `g_hash_table_insert`. An existing entry of
the key is replaced. On a NULL table GLib logs a critical warning and does
nothing. -/
def g_hash_table_insert (t : Option GHashTable) (key value : String) : Option GHashTable :=
  match t with
  | none => none
  | some l => some ((key, value) :: l.filter (fun p => p.1 != key))

/-- What `%s` prints in `g_strdup_printf`: the string, or `(null)` for NULL. -/
def printf_s (s : Option String) : String := s.getD "(null)"

/-! ## Plugin state -/

/-- The record `struct PulsePluginPriv`. `mainloop` and `proplist` are set once in
`pulse_sink_initialize` and never written again; they are left out. `context`
says whether the pointer is non-NULL, `upload_file` holds the path of the open
sound file. -/
structure PulsePluginPriv where
  valid : Bool
  context : Bool
  upload_file : Option String
  cached_files : Option GHashTable
  queued_samples : Int
  deriving DecidableEq, Repr

/-- The record `struct PulsePluginData` (without the request and sink handles). -/
structure PulsePluginData where
  filename : Option String
  sound_enabled : Bool
  deriving DecidableEq, Repr

/-! ## Trace of library calls -/

inductive Action where
  | file_test (fn : String) (found : Bool)
  | mainloop_lock
  | mainloop_unlock
  | mainloop_wait
  | context_disconnect
  | context_unref
  | context_new (ok : Bool)
  | context_connect
  | context_get_state (s : pa_context_state_t)
  | hash_table_lookup (key : String) (found : Option String)
  | hash_table_insert (key value : String)
  | sf_open (filename : String) (ok : Bool)
  | sf_close
  | stream_new (id : String) (rate channels : Nat) (ok : Bool)
  | stream_connect_upload (size : Nat) (ret : Int)
  | stream_get_state (s : pa_stream_state_t)
  | stream_write (count : Int) (ret : Int)
  | stream_finish_upload
  | stream_unref
  | play_sample (name : Option String) (ok : Bool)
  | operation_unref
  | finished_cb
  deriving DecidableEq, Repr

/-! ## Callbacks run by the event thread -/

/-- The function `context_state_callback`; `state` is what
`pa_context_get_state (context)` returns. -/
def context_state_callback (state : pa_context_state_t) (priv : PulsePluginPriv) :
    PulsePluginPriv :=
  match state with
  | PA_CONTEXT_READY => { priv with cached_files := some [], valid := true }
  | PA_CONTEXT_FAILED => { priv with valid := false }
  | PA_CONTEXT_TERMINATED => { priv with valid := false }
  | _ => priv

/-- The function `play_sample_callback`: `priv->queued_samples--`; the index only
selects the log line. -/
def play_sample_callback (_index : Nat) (priv : PulsePluginPriv) : PulsePluginPriv :=
  { priv with queued_samples := wrap_int (priv.queued_samples - 1) }

/-- The function `stream_state_callback`: it only signals the main loop. -/
def stream_state_callback (priv : PulsePluginPriv) : PulsePluginPriv := priv

/-- The function `stream_write_callback`: the library calls it makes. `count` is
what `sf_read_raw` returns and `ret` what `pa_stream_write` returns. -/
def stream_write_callback (count ret : Int) (priv : PulsePluginPriv) : List Action :=
  match priv.upload_file with
  | none => []
  | some _ => [Action.stream_write count ret, Action.stream_finish_upload]

/-- One callback invocation by the event thread, with what the library tells it. -/
inductive Event where
  | context_state (s : pa_context_state_t)
  | stream_state (s : pa_stream_state_t)
  | play_sample (index : Nat)
  | stream_write (count ret : Int)
  deriving DecidableEq, Repr

/-- Run one callback. -/
def deliver (e : Event) (priv : PulsePluginPriv) : PulsePluginPriv × List Action :=
  match e with
  | Event.context_state s => (context_state_callback s priv, [])
  | Event.stream_state _ => (stream_state_callback priv, [])
  | Event.play_sample index => (play_sample_callback index priv, [])
  | Event.stream_write count ret => (priv, stream_write_callback count ret priv)

/-- Run a list of callbacks in order. -/
def run_callbacks : List Event → PulsePluginPriv → PulsePluginPriv × List Action
  | [], priv => (priv, [])
  | e :: es, priv =>
    ((run_callbacks es (deliver e priv).1).1,
      (deliver e priv).2 ++ (run_callbacks es (deliver e priv).1).2)

/-- State of the context after a list of callbacks: that of its last state change. -/
def context_state_after : List Event → pa_context_state_t → pa_context_state_t
  | [], s => s
  | Event.context_state s :: es, _ => context_state_after es s
  | _ :: es, s => context_state_after es s

/-- State of the upload stream after a list of callbacks. -/
def stream_state_after : List Event → pa_stream_state_t → pa_stream_state_t
  | [], s => s
  | Event.stream_state s :: es, _ => stream_state_after es s
  | _ :: es, s => stream_state_after es s

/-! ## Results of the caller-thread functions -/

/-- Outcome of a function returning `void`. -/
structure Run where
  priv : PulsePluginPriv
  trace : List Action
  blocked : Bool
  deriving DecidableEq, Repr

/-- Outcome of `pulse_plugin_priv_cache_file`. -/
structure CacheRun where
  priv : PulsePluginPriv
  success : Bool
  trace : List Action
  blocked : Bool
  deriving DecidableEq, Repr

/-! ## `pulse_plugin_priv_connect` -/

/-- Answers of the libraries during one `pulse_plugin_priv_connect`. -/
structure ConnectEnv where
  /-- Callbacks run inside `pa_context_disconnect` of the old context. -/
  disconnect_events : List Event
  /-- Whether `pa_context_new` returns a context. -/
  context_new : Bool
  /-- Callbacks run inside `pa_context_connect`. -/
  connect_events : List Event
  /-- Callbacks run during each `pa_threaded_mainloop_wait`. -/
  waits : List (List Event)

/-- The loop "Wait for connection" of `pulse_plugin_priv_connect`. -/
def pulse_plugin_priv_connect_wait :
    List (List Event) → pa_context_state_t → PulsePluginPriv → Run
  | [], state, priv =>
    if state = PA_CONTEXT_READY ∨ state = PA_CONTEXT_FAILED ∨ state = PA_CONTEXT_TERMINATED then
      { priv := priv, trace := [Action.context_get_state state], blocked := false }
    else
      { priv := priv, trace := [Action.context_get_state state, Action.mainloop_wait],
        blocked := true }
  | evs :: rest, state, priv =>
    if state = PA_CONTEXT_READY ∨ state = PA_CONTEXT_FAILED ∨ state = PA_CONTEXT_TERMINATED then
      { priv := priv, trace := [Action.context_get_state state], blocked := false }
    else
      let r := pulse_plugin_priv_connect_wait rest (context_state_after evs state)
        (run_callbacks evs priv).1
      { r with trace := [Action.context_get_state state, Action.mainloop_wait]
          ++ (run_callbacks evs priv).2 ++ r.trace }

/-- The function `pulse_plugin_priv_connect`. -/
def pulse_plugin_priv_connect (priv : PulsePluginPriv) (env : ConnectEnv) : Run :=
  let old : PulsePluginPriv × List Action :=
    if priv.context then
      ({ (run_callbacks env.disconnect_events priv).1 with context := false },
        [Action.context_disconnect] ++ (run_callbacks env.disconnect_events priv).2
          ++ [Action.context_unref])
    else (priv, [])
  if env.context_new then
    let p1 := (run_callbacks env.connect_events { old.1 with context := true }).1
    let r := pulse_plugin_priv_connect_wait env.waits
      (context_state_after env.connect_events PA_CONTEXT_UNCONNECTED) p1
    { r with trace := old.2 ++ [Action.context_new true, Action.context_connect]
        ++ (run_callbacks env.connect_events { old.1 with context := true }).2 ++ r.trace }
  else
    { priv := old.1, trace := old.2 ++ [Action.context_new false], blocked := false }

/-! ## `pulse_plugin_priv_cache_file` -/

/-- Answers of the libraries during one `pulse_plugin_priv_cache_file`. -/
structure CacheEnv where
  /-- What `sf_open` finds at a path. -/
  sf_open : String → Option SF_INFO
  /-- Whether `pa_stream_new` returns a stream. -/
  stream_new : Bool
  /-- Return value of `pa_stream_connect_upload`. -/
  connect_upload_ret : Int
  /-- State of the stream when a successful `pa_stream_connect_upload` has returned
  (the library moves it to `PA_STREAM_CREATING`). -/
  upload_state : pa_stream_state_t
  /-- Callbacks run during each `pa_threaded_mainloop_wait`. -/
  waits : List (List Event)
  /-- Width of `size_t` in bits. -/
  size_bits : Nat

/-- The upload size `MAX(MINIMUM_STREAM_SIZE, info.frames * 2)`, as a `size_t`. -/
def upload_size (size_bits : Nat) (frames : Int) : Nat :=
  to_unsigned size_bits (MAX MINIMUM_STREAM_SIZE (wrap_int64 (frames * 2)))

/-- The loop `while (!finished)` of `pulse_plugin_priv_cache_file`. -/
def pulse_plugin_priv_cache_file_wait (filename id : String) :
    List (List Event) → pa_stream_state_t → PulsePluginPriv → CacheRun
  | [], state, priv =>
    match state with
    | PA_STREAM_FAILED =>
      { priv := priv, success := false, trace := [Action.stream_get_state state],
        blocked := false }
    | PA_STREAM_TERMINATED =>
      { priv := { priv with cached_files := g_hash_table_insert priv.cached_files filename id },
        success := true,
        trace := [Action.stream_get_state state, Action.hash_table_insert filename id],
        blocked := false }
    | _ =>
      { priv := priv, success := true,
        trace := [Action.stream_get_state state, Action.mainloop_wait], blocked := true }
  | evs :: rest, state, priv =>
    match state with
    | PA_STREAM_FAILED =>
      { priv := priv, success := false, trace := [Action.stream_get_state state],
        blocked := false }
    | PA_STREAM_TERMINATED =>
      { priv := { priv with cached_files := g_hash_table_insert priv.cached_files filename id },
        success := true,
        trace := [Action.stream_get_state state, Action.hash_table_insert filename id],
        blocked := false }
    | _ =>
      let r := pulse_plugin_priv_cache_file_wait filename id rest (stream_state_after evs state)
        (run_callbacks evs priv).1
      { r with trace := [Action.stream_get_state state, Action.mainloop_wait]
          ++ (run_callbacks evs priv).2 ++ r.trace }

/-- The function `pulse_plugin_priv_cache_file`. -/
def pulse_plugin_priv_cache_file (priv : PulsePluginPriv) (filename : String)
    (sound_id : Option String) (env : CacheEnv) : CacheRun :=
  let id := "ngfd_pulse_" ++ printf_s sound_id
  match env.sf_open filename with
  | none =>
    { priv := priv, success := false, trace := [Action.sf_open filename false],
      blocked := false }
  | some info =>
    if info.format &&& SF_FORMAT_TYPEMASK ≠ SF_FORMAT_WAV
        ∨ info.format &&& SF_FORMAT_SUBMASK ≠ SF_FORMAT_PCM_16 then
      { priv := priv, success := false,
        trace := [Action.sf_open filename true, Action.sf_close], blocked := false }
    else
      let rate := to_unsigned 32 info.samplerate
      let channels := to_unsigned 8 info.channels
      if !env.stream_new then
        { priv := priv, success := false,
          trace := [Action.sf_open filename true, Action.stream_new id rate channels false,
            Action.sf_close],
          blocked := false }
      else
        let size := upload_size env.size_bits info.frames
        let t0 := [Action.sf_open filename true, Action.stream_new id rate channels true,
          Action.stream_connect_upload size env.connect_upload_ret]
        if env.connect_upload_ret < 0 then
          { priv := priv, success := false,
            trace := t0 ++ [Action.stream_unref, Action.sf_close], blocked := false }
        else
          let r := pulse_plugin_priv_cache_file_wait filename id env.waits env.upload_state
            { priv with upload_file := some filename }
          if r.blocked then
            { r with trace := t0 ++ r.trace }
          else
            { priv := { r.priv with upload_file := none }, success := r.success,
              trace := t0 ++ r.trace ++ [Action.stream_unref, Action.sf_close],
              blocked := false }

/-! ## `pulse_plugin_priv_play` -/

/-- Answers of the libraries during one `pulse_plugin_priv_play`. -/
structure PlayEnv where
  /-- What `g_file_test (fn, G_FILE_TEST_EXISTS)` returns for a path. -/
  file_test : String → Bool
  connect : ConnectEnv
  cache : CacheEnv
  /-- Whether `pa_context_play_sample_with_proplist` returns an operation. -/
  play_op : Bool

/-- The path `g_strdup_printf ("/usr/share/sounds/jolla-ambient/stereo/%s.wav", ...)`. -/
def resolved_path (filename : Option String) : String :=
  "/usr/share/sounds/jolla-ambient/stereo/" ++ printf_s filename ++ ".wav"

/-- The label `cleanup:` of `pulse_plugin_priv_play`: the callback, when there is one. -/
def play_cleanup (finished_cb : Bool) : List Action :=
  if finished_cb then [Action.finished_cb] else []

/-- The chain `if (!priv->valid) ... else if (!can_play) ... else if (queued_samples >
MAX_QUEUED_SAMPLES) ... else ...` of `pulse_plugin_priv_play`. -/
def play_submit (priv : PulsePluginPriv) (can_play : Bool) (fn : String) (play_op : Bool) :
    PulsePluginPriv × List Action :=
  if !priv.valid then (priv, [])
  else if !can_play then (priv, [])
  else if priv.queued_samples > MAX_QUEUED_SAMPLES then (priv, [])
  else if play_op then
    ({ priv with queued_samples := wrap_int (priv.queued_samples + 1) },
      [Action.play_sample (g_hash_table_lookup priv.cached_files fn) true,
        Action.operation_unref])
  else
    (priv, [Action.play_sample (g_hash_table_lookup priv.cached_files fn) false])

/-- The function `pulse_plugin_priv_play`; `finished_cb` says whether the callback
pointer is non-NULL. -/
def pulse_plugin_priv_play (priv : PulsePluginPriv) (data : PulsePluginData)
    (finished_cb : Bool) (env : PlayEnv) : Run :=
  let fn := resolved_path data.filename
  if !env.file_test fn then
    { priv := priv, trace := [Action.file_test fn false] ++ play_cleanup finished_cb,
      blocked := false }
  else
    let t0 := [Action.file_test fn true, Action.mainloop_lock]
    let c : Run :=
      if !priv.valid then pulse_plugin_priv_connect priv env.connect
      else { priv := priv, trace := [], blocked := false }
    if c.blocked then
      { c with trace := t0 ++ c.trace }
    else
      let found := g_hash_table_lookup c.priv.cached_files fn
      let t1 := t0 ++ c.trace ++ [Action.hash_table_lookup fn found]
      let u : CacheRun :=
        if found.isNone then pulse_plugin_priv_cache_file c.priv fn data.filename env.cache
        else { priv := c.priv, success := true, trace := [], blocked := false }
      if u.blocked then
        { priv := u.priv, trace := t1 ++ u.trace, blocked := true }
      else
        let s := play_submit u.priv u.success fn env.play_op
        { priv := s.1,
          trace := t1 ++ u.trace ++ s.2 ++ [Action.mainloop_unlock] ++ play_cleanup finished_cb,
          blocked := false }

/-! ## The sink interface -/

/-- A value of the request's property bag (`NValue` of ngfd). -/
inductive NValue where
  | string (s : String)
  | int (i : Int)
  | other
  deriving DecidableEq, Repr

/-- The property bag of a request (`NProplist` of ngfd). -/
abbrev NProplist := List (String × NValue)

/-- Membership test `n_proplist_has_key`. -/
def n_proplist_has_key (props : NProplist) (key : String) : Bool :=
  (props.lookup key).isSome

/-- Getter `n_proplist_get_string`: NULL unless the key holds a string. -/
def n_proplist_get_string (props : NProplist) (key : String) : Option String :=
  match props.lookup key with
  | some (NValue.string s) => some s
  | _ => none

/-- Getter `n_proplist_get_int`: 0 unless the key holds an integer. -/
def n_proplist_get_int (props : NProplist) (key : String) : Int :=
  match props.lookup key with
  | some (NValue.int i) => i
  | _ => 0

/-- The function `pulse_sink_can_handle`. -/
def pulse_sink_can_handle (props : NProplist) : Bool :=
  n_proplist_has_key props SOUND_FILENAME_KEY

/-- The function `pulse_sink_prepare`: the data it stores in the request. -/
def pulse_sink_prepare (props : NProplist) : PulsePluginData :=
  { filename := n_proplist_get_string props SOUND_FILENAME_KEY,
    sound_enabled :=
      if n_proplist_has_key props SOUND_VOLUME_KEY then
        decide (n_proplist_get_int props SOUND_VOLUME_KEY > 0)
      else true }

/-- The function `pulse_sink_play`: it plays the stored data with
`finished_callback` as the callback. -/
def pulse_sink_play (priv : PulsePluginPriv) (data : PulsePluginData) (env : PlayEnv) : Run :=
  pulse_plugin_priv_play priv data true env

/-! ## Observations on traces -/

/-- Whether an action is the server play call `pa_context_play_sample_with_proplist`. -/
def Action.is_play_sample : Action → Bool
  | Action.play_sample _ _ => true
  | _ => false

/-- Whether an action belongs only to a run of `pulse_plugin_priv_cache_file`:
its first library call is `sf_open`. -/
def Action.is_cache_file : Action → Bool
  | Action.sf_open _ _ => true
  | _ => false

/-- Number of invocations of the finished callback in a trace. -/
def finished_count (t : List Action) : Nat := t.count Action.finished_cb

/-- Number of server play calls in a trace. -/
def play_count (t : List Action) : Nat := t.countP Action.is_play_sample

/-- Number of runs of `pulse_plugin_priv_cache_file` in a trace. -/
def cache_file_count (t : List Action) : Nat := t.countP Action.is_cache_file

/-! ## Observations on environments -/

/-- States of the context at the successive polls of a wait loop that starts in
state `s` and is woken up after each list of callbacks. -/
def context_polls : List (List Event) → pa_context_state_t → List pa_context_state_t
  | [], s => [s]
  | evs :: rest, s => s :: context_polls rest (context_state_after evs s)

/-- States of the upload stream at the successive polls of a wait loop. -/
def stream_polls : List (List Event) → pa_stream_state_t → List pa_stream_state_t
  | [], s => [s]
  | evs :: rest, s => s :: stream_polls rest (stream_state_after evs s)

/-- None of the callbacks is `context_state_callback` for a context that became Ready. -/
def no_ready (evs : List Event) : Prop :=
  Event.context_state PA_CONTEXT_READY ∉ evs

instance (evs : List Event) : Decidable (no_ready evs) := by
  unfold no_ready; infer_instance

/-- No callback that runs during a `pulse_plugin_priv_connect` reports Ready. -/
def ConnectEnv.no_ready (env : ConnectEnv) : Prop :=
  NgfdPulse.no_ready env.disconnect_events ∧ NgfdPulse.no_ready env.connect_events
    ∧ ∀ evs ∈ env.waits, NgfdPulse.no_ready evs

instance (env : ConnectEnv) : Decidable env.no_ready := by
  unfold ConnectEnv.no_ready; infer_instance

/-- The table exists whenever the connection is marked valid. -/
def well_formed (priv : PulsePluginPriv) : Prop :=
  priv.valid = true → priv.cached_files.isSome = true

instance (priv : PulsePluginPriv) : Decidable (well_formed priv) := by
  unfold well_formed; infer_instance

/-- The accepted sound files: RIFF/WAVE container with 16-bit PCM samples. -/
def accepted (info : SF_INFO) : Prop :=
  info.format &&& SF_FORMAT_TYPEMASK = SF_FORMAT_WAV
    ∧ info.format &&& SF_FORMAT_SUBMASK = SF_FORMAT_PCM_16

instance (info : SF_INFO) : Decidable (accepted info) := by
  unfold accepted; infer_instance

/-! ## Classes of library calls and steps of `pulse_plugin_priv_play` -/

/-- The library calls made by the callbacks themselves. -/
def Action.in_callback : Action → Bool
  | Action.stream_write _ _ => true
  | Action.stream_finish_upload => true
  | _ => false

/-- The library calls that can occur while a wait loop runs. -/
def Action.in_wait : Action → Bool
  | Action.mainloop_wait => true
  | Action.context_get_state _ => true
  | Action.stream_get_state _ => true
  | Action.hash_table_insert _ _ => true
  | Action.stream_write _ _ => true
  | Action.stream_finish_upload => true
  | _ => false

/-- The library calls that can occur during `pulse_plugin_priv_connect`. -/
def Action.in_connect : Action → Bool
  | Action.context_disconnect => true
  | Action.context_unref => true
  | Action.context_new _ => true
  | Action.context_connect => true
  | a => a.in_wait

/-- The reconnect step of `pulse_plugin_priv_play`: `if (!priv->valid)
pulse_plugin_priv_connect (priv)`. -/
def play_connect_step (priv : PulsePluginPriv) (env : PlayEnv) : Run :=
  if !priv.valid then pulse_plugin_priv_connect priv env.connect
  else { priv := priv, trace := [], blocked := false }

/-- The caching step of `pulse_plugin_priv_play`: the upload when the lookup misses. -/
def play_cache_step (priv : PulsePluginPriv) (data : PulsePluginData) (env : PlayEnv) :
    CacheRun :=
  if (g_hash_table_lookup priv.cached_files (resolved_path data.filename)).isNone then
    pulse_plugin_priv_cache_file priv (resolved_path data.filename) data.filename env.cache
  else { priv := priv, success := true, trace := [], blocked := false }

/-! ## Concrete states and environments -/

/-- A connect environment in which the server answers Ready at the first wake-up. -/
def connect_env_ready : ConnectEnv :=
  { disconnect_events := [],
    context_new := true,
    connect_events := [Event.context_state PA_CONTEXT_CONNECTING],
    waits := [[Event.context_state PA_CONTEXT_READY]] }

/-- Sound file metadata: WAVE, 16-bit PCM, 44100 Hz. -/
def wav_info (frames channels : Int) : SF_INFO :=
  { frames := frames, samplerate := 44100, channels := channels,
    format := SF_FORMAT_WAV ||| SF_FORMAT_PCM_16 }

/-- An upload environment in which the stream is written once and then Terminated. -/
def cache_env_terminated (info : SF_INFO) : CacheEnv :=
  { sf_open := fun _ => some info,
    stream_new := true,
    connect_upload_ret := 0,
    upload_state := PA_STREAM_CREATING,
    waits := [[Event.stream_state PA_STREAM_READY, Event.stream_write 4096 0],
      [Event.stream_state PA_STREAM_TERMINATED]],
    size_bits := 32 }

/-- An upload environment in which the stream fails. -/
def cache_env_failed (info : SF_INFO) : CacheEnv :=
  { cache_env_terminated info with waits := [[Event.stream_state PA_STREAM_FAILED]] }

/-- A play environment: every file exists, uploads terminate, submissions succeed. -/
def play_env_ok : PlayEnv :=
  { file_test := fun _ => true,
    connect := connect_env_ready,
    cache := cache_env_terminated (wav_info 10000 2),
    play_op := true }

/-- A connect environment in which the connection attempt fails. -/
def connect_env_failed : ConnectEnv :=
  { disconnect_events := [Event.context_state PA_CONTEXT_TERMINATED],
    context_new := true,
    connect_events := [Event.context_state PA_CONTEXT_CONNECTING],
    waits := [[Event.context_state PA_CONTEXT_FAILED]] }

/-- A play environment in which a reconnect fails. -/
def play_env_offline : PlayEnv :=
  { play_env_ok with connect := connect_env_failed }

/-- A play environment in which no file exists. -/
def play_env_missing : PlayEnv :=
  { play_env_ok with file_test := fun _ => false }

/-- The plugin state as `g_slice_new0` allocates it in `pulse_sink_initialize`, before
the first connection attempt. -/
def priv_initial : PulsePluginPriv :=
  { valid := false, context := false, upload_file := none, cached_files := none,
    queued_samples := 0 }

/-- An upload environment in which the sound file cannot be opened. -/
def cache_env_no_file : CacheEnv :=
  { cache_env_terminated (wav_info 0 2) with sf_open := fun _ => none }

/-- The plugin state after a successful first connection: valid, empty cache. -/
def priv_ready : PulsePluginPriv :=
  { valid := true, context := true, upload_file := none, cached_files := some [],
    queued_samples := 0 }

/-- The plugin state with the sample of the sound `click` uploaded. -/
def priv_cached : PulsePluginPriv :=
  { priv_ready with
    cached_files := some [("/usr/share/sounds/jolla-ambient/stereo/click.wav",
      "ngfd_pulse_click")] }

/-- The request data of the sound `click`. -/
def data_click : PulsePluginData := { filename := some "click", sound_enabled := true }

/-- The property bag of a request for the sound `click` with volume 0. -/
def props_click_muted : NProplist :=
  [(SOUND_FILENAME_KEY, NValue.string "click"), (SOUND_VOLUME_KEY, NValue.int 0)]

/-! ## Lemmas: hash table -/

theorem lookup_filter_ne (l : GHashTable) (key k : String) (hk : k ≠ key) :
    List.lookup k (l.filter (fun p => p.1 != key)) = List.lookup k l := by
  induction l with
  | nil => rfl
  | cons p l ih =>
    obtain ⟨a, b⟩ := p
    by_cases ha : a = key
    · subst ha
      have h2 : (k == a) = false := by simpa using hk
      have h4 : (a != a) = false := by simp
      rw [List.filter_cons]
      simp only [h4, List.lookup, h2]
      simpa using ih
    · have h4 : (a != key) = true := by simpa using ha
      rw [List.filter_cons]
      simp only [h4, if_true]
      by_cases hka : k = a
      · subst hka; simp [List.lookup]
      · have h3 : (k == a) = false := by simpa using hka
        simp only [List.lookup, h3]
        exact ih

theorem lookup_insert (t : Option GHashTable) (key value k : String) (h : t.isSome = true) :
    g_hash_table_lookup (g_hash_table_insert t key value) k
      = if k = key then some value else g_hash_table_lookup t k := by
  cases t with
  | none => simp at h
  | some l =>
    simp only [g_hash_table_insert, g_hash_table_lookup]
    by_cases hk : k = key
    · subst hk; simp [List.lookup]
    · have h1 : (k == key) = false := by simpa using hk
      simp only [hk, if_false, List.lookup, h1]
      exact lookup_filter_ne l key k hk

theorem insert_isSome (t : Option GHashTable) (key value : String) :
    (g_hash_table_insert t key value).isSome = t.isSome := by
  cases t <;> rfl

/-! ## Lemmas: callbacks -/

theorem deliver_in_wait (e : Event) (priv : PulsePluginPriv) :
    ∀ a ∈ (deliver e priv).2, a.in_wait = true := by
  cases e <;> simp [deliver, stream_write_callback]
  cases priv.upload_file <;> simp [Action.in_wait]

theorem run_callbacks_in_wait (evs : List Event) :
    ∀ (priv : PulsePluginPriv), ∀ a ∈ (run_callbacks evs priv).2, a.in_wait = true := by
  induction evs with
  | nil => intro priv a h; simp [run_callbacks] at h
  | cons e es ih =>
    intro priv a h
    simp only [run_callbacks, List.mem_append] at h
    rcases h with h | h
    · exact deliver_in_wait e priv a h
    · exact ih _ a h

theorem deliver_isSome (e : Event) (priv : PulsePluginPriv)
    (h : priv.cached_files.isSome = true) : (deliver e priv).1.cached_files.isSome = true := by
  cases e with
  | context_state s => cases s <;> simp [deliver, context_state_callback, h]
  | stream_state s => simpa [deliver, stream_state_callback] using h
  | play_sample i => simpa [deliver, play_sample_callback] using h
  | stream_write c r => simpa [deliver] using h

theorem run_callbacks_isSome (evs : List Event) :
    ∀ (priv : PulsePluginPriv), priv.cached_files.isSome = true →
      (run_callbacks evs priv).1.cached_files.isSome = true := by
  induction evs with
  | nil => intro priv h; simpa [run_callbacks] using h
  | cons e es ih =>
    intro priv h
    simp only [run_callbacks]
    exact ih _ (deliver_isSome e priv h)

theorem deliver_well_formed (e : Event) (priv : PulsePluginPriv) (h : well_formed priv) :
    well_formed (deliver e priv).1 := by
  unfold well_formed at *
  cases e with
  | context_state s => cases s <;> simp_all [deliver, context_state_callback]
  | stream_state s => simpa [deliver, stream_state_callback] using h
  | play_sample i => simpa [deliver, play_sample_callback] using h
  | stream_write c r => simpa [deliver] using h

theorem run_callbacks_well_formed (evs : List Event) :
    ∀ (priv : PulsePluginPriv), well_formed priv → well_formed (run_callbacks evs priv).1 := by
  induction evs with
  | nil => intro priv h; simpa [run_callbacks] using h
  | cons e es ih =>
    intro priv h
    simp only [run_callbacks]
    exact ih _ (deliver_well_formed e priv h)

theorem deliver_no_ready (e : Event) (priv : PulsePluginPriv)
    (h : e ≠ Event.context_state PA_CONTEXT_READY) :
    (deliver e priv).1.cached_files = priv.cached_files := by
  cases e with
  | context_state s => cases s <;> simp_all [deliver, context_state_callback]
  | stream_state s => simp [deliver, stream_state_callback]
  | play_sample i => simp [deliver, play_sample_callback]
  | stream_write c r => simp [deliver]

theorem run_callbacks_no_ready (evs : List Event) :
    ∀ (priv : PulsePluginPriv), no_ready evs →
      (run_callbacks evs priv).1.cached_files = priv.cached_files := by
  induction evs with
  | nil => intro priv _; simp [run_callbacks]
  | cons e es ih =>
    intro priv h
    simp only [no_ready, List.mem_cons, not_or] at h
    simp only [run_callbacks]
    rw [ih _ h.2]
    exact deliver_no_ready e priv (fun he => h.1 he.symm)

theorem deliver_upload_file (e : Event) (priv : PulsePluginPriv) :
    (deliver e priv).1.upload_file = priv.upload_file
      ∧ (deliver e priv).1.context = priv.context := by
  cases e with
  | context_state s => cases s <;> simp [deliver, context_state_callback]
  | stream_state s => simp [deliver, stream_state_callback]
  | play_sample i => simp [deliver, play_sample_callback]
  | stream_write c r => simp [deliver]

theorem run_callbacks_upload_file (evs : List Event) :
    ∀ (priv : PulsePluginPriv),
      (run_callbacks evs priv).1.upload_file = priv.upload_file
        ∧ (run_callbacks evs priv).1.context = priv.context := by
  induction evs with
  | nil => intro priv; simp [run_callbacks]
  | cons e es ih =>
    intro priv
    simp only [run_callbacks]
    rw [(ih _).1, (ih _).2]
    exact deliver_upload_file e priv

theorem deliver_in_callback (e : Event) (priv : PulsePluginPriv) :
    ∀ a ∈ (deliver e priv).2, a.in_callback = true := by
  cases e <;> simp [deliver, stream_write_callback]
  cases priv.upload_file <;> simp [Action.in_callback]

theorem run_callbacks_in_callback (evs : List Event) :
    ∀ (priv : PulsePluginPriv), ∀ a ∈ (run_callbacks evs priv).2, a.in_callback = true := by
  induction evs with
  | nil => intro priv a h; simp [run_callbacks] at h
  | cons e es ih =>
    intro priv a h
    simp only [run_callbacks, List.mem_append] at h
    rcases h with h | h
    · exact deliver_in_callback e priv a h
    · exact ih _ a h

/-! ## Lemmas: the wait loop of `pulse_plugin_priv_connect` -/

theorem connect_wait_in_wait (waits : List (List Event)) :
    ∀ (state : pa_context_state_t) (priv : PulsePluginPriv),
      ∀ a ∈ (pulse_plugin_priv_connect_wait waits state priv).trace, a.in_wait = true := by
  induction waits with
  | nil =>
    intro state priv a h
    simp only [pulse_plugin_priv_connect_wait] at h
    split at h
    · simp at h; simp [h, Action.in_wait]
    · simp at h; rcases h with h | h <;> simp [h, Action.in_wait]
  | cons evs rest ih =>
    intro state priv a h
    simp only [pulse_plugin_priv_connect_wait] at h
    split at h
    · simp at h; simp [h, Action.in_wait]
    · simp only [List.mem_append, List.mem_cons, List.mem_singleton, List.not_mem_nil,
        or_false] at h
      rcases h with ((h | h) | h) | h
      · simp [h, Action.in_wait]
      · simp [h, Action.in_wait]
      · exact run_callbacks_in_wait evs priv a h
      · exact ih _ _ a h

theorem connect_wait_isSome (waits : List (List Event)) :
    ∀ (state : pa_context_state_t) (priv : PulsePluginPriv),
      priv.cached_files.isSome = true →
      (pulse_plugin_priv_connect_wait waits state priv).priv.cached_files.isSome = true := by
  induction waits with
  | nil =>
    intro state priv h
    simp only [pulse_plugin_priv_connect_wait]
    split <;> exact h
  | cons evs rest ih =>
    intro state priv h
    simp only [pulse_plugin_priv_connect_wait]
    split
    · exact h
    · exact ih _ _ (run_callbacks_isSome evs priv h)

theorem connect_wait_well_formed (waits : List (List Event)) :
    ∀ (state : pa_context_state_t) (priv : PulsePluginPriv),
      well_formed priv →
      well_formed (pulse_plugin_priv_connect_wait waits state priv).priv := by
  induction waits with
  | nil =>
    intro state priv h
    simp only [pulse_plugin_priv_connect_wait]
    split <;> exact h
  | cons evs rest ih =>
    intro state priv h
    simp only [pulse_plugin_priv_connect_wait]
    split
    · exact h
    · exact ih _ _ (run_callbacks_well_formed evs priv h)

theorem connect_wait_no_ready (waits : List (List Event)) :
    ∀ (state : pa_context_state_t) (priv : PulsePluginPriv),
      (∀ evs ∈ waits, no_ready evs) →
      (pulse_plugin_priv_connect_wait waits state priv).priv.cached_files
        = priv.cached_files := by
  induction waits with
  | nil =>
    intro state priv _
    simp only [pulse_plugin_priv_connect_wait]
    split <;> rfl
  | cons evs rest ih =>
    intro state priv h
    simp only [pulse_plugin_priv_connect_wait]
    split
    · rfl
    · have h1 := ih (context_state_after evs state) (run_callbacks evs priv).1
        (fun e he => h e (List.mem_cons_of_mem _ he))
      simp only [h1]
      exact run_callbacks_no_ready evs priv (h evs (List.mem_cons_self _ _))

theorem connect_wait_returns (waits : List (List Event)) :
    ∀ (state : pa_context_state_t) (priv : PulsePluginPriv),
      (∃ s ∈ context_polls waits state,
        s = PA_CONTEXT_READY ∨ s = PA_CONTEXT_FAILED ∨ s = PA_CONTEXT_TERMINATED) →
      (pulse_plugin_priv_connect_wait waits state priv).blocked = false := by
  induction waits with
  | nil =>
    intro state priv h
    simp only [context_polls, List.mem_singleton] at h
    obtain ⟨s, rfl, hs⟩ := h
    simp [pulse_plugin_priv_connect_wait, hs]
  | cons evs rest ih =>
    intro state priv h
    simp only [pulse_plugin_priv_connect_wait]
    split
    · rfl
    · rename_i hn
      simp only [context_polls, List.mem_cons] at h
      obtain ⟨s, hs | hs, hf⟩ := h
      · subst hs; exact absurd hf hn
      · exact ih _ _ ⟨s, hs, hf⟩

/-! ## Lemmas: the wait loop of `pulse_plugin_priv_cache_file` -/

theorem cache_wait_in_wait (filename id : String) (waits : List (List Event)) :
    ∀ (state : pa_stream_state_t) (priv : PulsePluginPriv),
      ∀ a ∈ (pulse_plugin_priv_cache_file_wait filename id waits state priv).trace,
        a.in_wait = true := by
  induction waits with
  | nil =>
    intro state priv a h
    cases state <;> simp [pulse_plugin_priv_cache_file_wait] at h
    all_goals first
      | (rcases h with h | h <;> simp [h, Action.in_wait])
      | simp [h, Action.in_wait]
  | cons evs rest ih =>
    intro state priv a h
    cases state <;> simp only [pulse_plugin_priv_cache_file_wait, List.mem_append,
      List.mem_cons, List.mem_singleton, List.not_mem_nil, or_false] at h
    case PA_STREAM_FAILED => simp [h, Action.in_wait]
    case PA_STREAM_TERMINATED => rcases h with h | h <;> simp [h, Action.in_wait]
    all_goals
      rcases h with ((h | h) | h) | h
      · simp [h, Action.in_wait]
      · simp [h, Action.in_wait]
      · exact run_callbacks_in_wait evs priv a h
      · exact ih _ _ a h

theorem cache_wait_isSome (filename id : String) (waits : List (List Event)) :
    ∀ (state : pa_stream_state_t) (priv : PulsePluginPriv),
      priv.cached_files.isSome = true →
      (pulse_plugin_priv_cache_file_wait filename id waits state priv).priv.cached_files.isSome
        = true := by
  induction waits with
  | nil =>
    intro state priv h
    cases state <;> simp [pulse_plugin_priv_cache_file_wait, insert_isSome, h]
  | cons evs rest ih =>
    intro state priv h
    cases state <;> simp only [pulse_plugin_priv_cache_file_wait, insert_isSome, h]
    all_goals exact ih _ _ (run_callbacks_isSome evs priv h)

theorem cache_wait_well_formed (filename id : String) (waits : List (List Event)) :
    ∀ (state : pa_stream_state_t) (priv : PulsePluginPriv),
      well_formed priv →
      well_formed (pulse_plugin_priv_cache_file_wait filename id waits state priv).priv := by
  induction waits with
  | nil =>
    intro state priv h
    cases state <;> simp only [pulse_plugin_priv_cache_file_wait] <;> try exact h
    intro hv; simpa [insert_isSome] using h hv
  | cons evs rest ih =>
    intro state priv h
    cases state <;> simp only [pulse_plugin_priv_cache_file_wait] <;> try exact h
    case PA_STREAM_TERMINATED => intro hv; simpa [insert_isSome] using h hv
    all_goals exact ih _ _ (run_callbacks_well_formed evs priv h)

theorem cache_wait_valid_upload (filename id : String) (waits : List (List Event)) :
    ∀ (state : pa_stream_state_t) (priv : PulsePluginPriv),
      (pulse_plugin_priv_cache_file_wait filename id waits state priv).priv.upload_file
        = priv.upload_file := by
  induction waits with
  | nil =>
    intro state priv
    cases state <;> simp [pulse_plugin_priv_cache_file_wait]
  | cons evs rest ih =>
    intro state priv
    cases state <;> simp only [pulse_plugin_priv_cache_file_wait]
    all_goals rw [ih]; exact (run_callbacks_upload_file evs priv).1

theorem cache_wait_returns (filename id : String) (waits : List (List Event)) :
    ∀ (state : pa_stream_state_t) (priv : PulsePluginPriv),
      (∃ s ∈ stream_polls waits state, s = PA_STREAM_FAILED ∨ s = PA_STREAM_TERMINATED) →
      (pulse_plugin_priv_cache_file_wait filename id waits state priv).blocked = false := by
  induction waits with
  | nil =>
    intro state priv h
    simp only [stream_polls, List.mem_singleton] at h
    obtain ⟨s, rfl, hs⟩ := h
    rcases hs with hs | hs <;> subst hs <;> rfl
  | cons evs rest ih =>
    intro state priv h
    simp only [stream_polls, List.mem_cons] at h
    obtain ⟨s, hs | hs, hf⟩ := h
    · subst hs
      rcases hf with hf | hf <;> subst hf <;> rfl
    · cases state <;> simp only [pulse_plugin_priv_cache_file_wait]
      all_goals exact ih _ _ ⟨s, hs, hf⟩

theorem cache_wait_terminated (filename id : String) (waits : List (List Event)) :
    ∀ (state : pa_stream_state_t) (priv : PulsePluginPriv),
      Action.stream_get_state PA_STREAM_TERMINATED
        ∈ (pulse_plugin_priv_cache_file_wait filename id waits state priv).trace →
      (pulse_plugin_priv_cache_file_wait filename id waits state priv).blocked = false
      ∧ (pulse_plugin_priv_cache_file_wait filename id waits state priv).success = true
      ∧ (priv.cached_files.isSome = true →
          g_hash_table_lookup
            (pulse_plugin_priv_cache_file_wait filename id waits state priv).priv.cached_files
            filename = some id)
      ∧ ((∀ evs ∈ waits, no_ready evs) →
          (pulse_plugin_priv_cache_file_wait filename id waits state priv).priv.cached_files
            = g_hash_table_insert priv.cached_files filename id) := by
  induction waits with
  | nil =>
    intro state priv h
    cases state <;> simp [pulse_plugin_priv_cache_file_wait] at h
    refine ⟨rfl, rfl, fun hs => ?_, fun _ => rfl⟩
    simp only [pulse_plugin_priv_cache_file_wait]
    rw [lookup_insert _ _ _ _ hs]; simp
  | cons evs rest ih =>
    intro state priv h
    cases state
    case PA_STREAM_FAILED => simp [pulse_plugin_priv_cache_file_wait] at h
    case PA_STREAM_TERMINATED =>
      refine ⟨rfl, rfl, fun hs => ?_, fun _ => rfl⟩
      simp only [pulse_plugin_priv_cache_file_wait]
      rw [lookup_insert _ _ _ _ hs]; simp
    all_goals
      simp only [pulse_plugin_priv_cache_file_wait, List.mem_append, List.mem_cons,
        List.mem_singleton, List.not_mem_nil, or_false] at h
      simp only [pulse_plugin_priv_cache_file_wait]
      rcases h with ((h | h) | h) | h
      · simp at h
      · simp at h
      · have := run_callbacks_in_callback evs priv _ h
        simp [Action.in_callback] at this
      · obtain ⟨h1, h2, h3, h4⟩ := ih _ _ h
        refine ⟨h1, h2, fun hs => h3 (run_callbacks_isSome evs priv hs), fun hn => ?_⟩
        rw [h4 (fun e he => hn e (List.mem_cons_of_mem _ he)),
          run_callbacks_no_ready evs priv (hn evs (List.mem_cons_self _ _))]

theorem cache_wait_failed (filename id : String) (waits : List (List Event)) :
    ∀ (state : pa_stream_state_t) (priv : PulsePluginPriv),
      Action.stream_get_state PA_STREAM_FAILED
        ∈ (pulse_plugin_priv_cache_file_wait filename id waits state priv).trace →
      (pulse_plugin_priv_cache_file_wait filename id waits state priv).blocked = false
      ∧ (pulse_plugin_priv_cache_file_wait filename id waits state priv).success = false
      ∧ ((∀ evs ∈ waits, no_ready evs) →
          (pulse_plugin_priv_cache_file_wait filename id waits state priv).priv.cached_files
            = priv.cached_files) := by
  induction waits with
  | nil =>
    intro state priv h
    cases state <;> simp [pulse_plugin_priv_cache_file_wait] at h
    simp [pulse_plugin_priv_cache_file_wait]
  | cons evs rest ih =>
    intro state priv h
    cases state
    case PA_STREAM_TERMINATED => simp [pulse_plugin_priv_cache_file_wait] at h
    case PA_STREAM_FAILED => simp [pulse_plugin_priv_cache_file_wait]
    all_goals
      simp only [pulse_plugin_priv_cache_file_wait, List.mem_append, List.mem_cons,
        List.mem_singleton, List.not_mem_nil, or_false] at h
      simp only [pulse_plugin_priv_cache_file_wait]
      rcases h with ((h | h) | h) | h
      · simp at h
      · simp at h
      · have := run_callbacks_in_callback evs priv _ h
        simp [Action.in_callback] at this
      · obtain ⟨h1, h2, h3⟩ := ih _ _ h
        refine ⟨h1, h2, fun hn => ?_⟩
        rw [h3 (fun e he => hn e (List.mem_cons_of_mem _ he)),
          run_callbacks_no_ready evs priv (hn evs (List.mem_cons_self _ _))]

/-! ## Lemmas: counting in traces -/

theorem in_wait_not_finished (a : Action) (h : a.in_wait = true) : a ≠ Action.finished_cb := by
  intro ha; subst ha; simp [Action.in_wait] at h

theorem in_wait_not_play (a : Action) (h : a.in_wait = true) : a.is_play_sample = false := by
  cases a <;> simp_all [Action.in_wait, Action.is_play_sample]

theorem in_wait_not_cache (a : Action) (h : a.in_wait = true) : a.is_cache_file = false := by
  cases a <;> simp_all [Action.in_wait, Action.is_cache_file]

theorem finished_count_in_wait (t : List Action) (h : ∀ a ∈ t, a.in_wait = true) :
    finished_count t = 0 := by
  unfold finished_count
  rw [List.count_eq_zero]
  intro hm
  exact in_wait_not_finished _ (h _ hm) rfl

theorem play_count_in_wait (t : List Action) (h : ∀ a ∈ t, a.in_wait = true) :
    play_count t = 0 := by
  unfold play_count
  rw [List.countP_eq_zero]
  intro a ha
  simp [in_wait_not_play a (h a ha)]

theorem cache_file_count_in_wait (t : List Action) (h : ∀ a ∈ t, a.in_wait = true) :
    cache_file_count t = 0 := by
  unfold cache_file_count
  rw [List.countP_eq_zero]
  intro a ha
  simp [in_wait_not_cache a (h a ha)]

theorem finished_count_append (s t : List Action) :
    finished_count (s ++ t) = finished_count s + finished_count t := by
  simp [finished_count]

theorem play_count_append (s t : List Action) :
    play_count (s ++ t) = play_count s + play_count t := by
  simp [play_count]

theorem cache_file_count_append (s t : List Action) :
    cache_file_count (s ++ t) = cache_file_count s + cache_file_count t := by
  simp [cache_file_count]

/-! ## Lemmas: `pulse_plugin_priv_connect` -/

theorem connect_counts (priv : PulsePluginPriv) (env : ConnectEnv) :
    finished_count (pulse_plugin_priv_connect priv env).trace = 0
    ∧ play_count (pulse_plugin_priv_connect priv env).trace = 0
    ∧ cache_file_count (pulse_plugin_priv_connect priv env).trace = 0 := by
  have hw := connect_wait_in_wait env.waits
    (context_state_after env.connect_events PA_CONTEXT_UNCONNECTED)
  have hd := run_callbacks_in_wait env.disconnect_events priv
  have hc := run_callbacks_in_wait env.connect_events
  unfold pulse_plugin_priv_connect
  cases hctx : priv.context <;> cases hnew : env.context_new <;>
    simp only [if_true, if_false, Bool.false_eq_true, finished_count_append, play_count_append,
      cache_file_count_append, finished_count_in_wait _ (hw _), play_count_in_wait _ (hw _),
      cache_file_count_in_wait _ (hw _), finished_count_in_wait _ hd, play_count_in_wait _ hd,
      cache_file_count_in_wait _ hd, finished_count_in_wait _ (hc _), play_count_in_wait _ (hc _),
      cache_file_count_in_wait _ (hc _)] <;>
    simp [finished_count, play_count, cache_file_count, Action.is_play_sample,
      Action.is_cache_file]

theorem connect_isSome (priv : PulsePluginPriv) (env : ConnectEnv)
    (h : priv.cached_files.isSome = true) :
    (pulse_plugin_priv_connect priv env).priv.cached_files.isSome = true := by
  have hd := run_callbacks_isSome env.disconnect_events priv h
  unfold pulse_plugin_priv_connect
  cases hctx : priv.context <;> cases hnew : env.context_new <;>
    simp only [if_true, if_false, Bool.false_eq_true]
  · exact h
  · exact connect_wait_isSome _ _ _ (run_callbacks_isSome _ _ h)
  · exact hd
  · exact connect_wait_isSome _ _ _ (run_callbacks_isSome _ _ hd)

theorem connect_well_formed (priv : PulsePluginPriv) (env : ConnectEnv)
    (h : well_formed priv) : well_formed (pulse_plugin_priv_connect priv env).priv := by
  have hd := run_callbacks_well_formed env.disconnect_events priv h
  unfold pulse_plugin_priv_connect
  cases hctx : priv.context <;> cases hnew : env.context_new <;>
    simp only [if_true, if_false, Bool.false_eq_true]
  · exact h
  · exact connect_wait_well_formed _ _ _ (run_callbacks_well_formed _ _ h)
  · exact hd
  · exact connect_wait_well_formed _ _ _ (run_callbacks_well_formed _ _ hd)

theorem connect_no_ready (priv : PulsePluginPriv) (env : ConnectEnv) (h : env.no_ready) :
    (pulse_plugin_priv_connect priv env).priv.cached_files = priv.cached_files := by
  obtain ⟨h1, h2, h3⟩ := h
  have hd := run_callbacks_no_ready env.disconnect_events priv h1
  unfold pulse_plugin_priv_connect
  cases hctx : priv.context <;> cases hnew : env.context_new <;>
    simp only [if_true, if_false, Bool.false_eq_true]
  · rw [connect_wait_no_ready _ _ _ h3, run_callbacks_no_ready _ _ h2]
  · exact hd
  · rw [connect_wait_no_ready _ _ _ h3, run_callbacks_no_ready _ _ h2]; exact hd

theorem connect_returns (priv : PulsePluginPriv) (env : ConnectEnv)
    (h : env.context_new = true → ∃ s ∈ context_polls env.waits
        (context_state_after env.connect_events PA_CONTEXT_UNCONNECTED),
      s = PA_CONTEXT_READY ∨ s = PA_CONTEXT_FAILED ∨ s = PA_CONTEXT_TERMINATED) :
    (pulse_plugin_priv_connect priv env).blocked = false := by
  unfold pulse_plugin_priv_connect
  cases hnew : env.context_new <;> simp only [if_true, if_false, Bool.false_eq_true]
  exact connect_wait_returns _ _ _ (h hnew)

/-! ## Lemmas: `pulse_plugin_priv_cache_file` -/

theorem cache_file_counts (priv : PulsePluginPriv) (filename : String)
    (sound_id : Option String) (env : CacheEnv) :
    finished_count (pulse_plugin_priv_cache_file priv filename sound_id env).trace = 0
    ∧ play_count (pulse_plugin_priv_cache_file priv filename sound_id env).trace = 0
    ∧ cache_file_count (pulse_plugin_priv_cache_file priv filename sound_id env).trace = 1 := by
  have hw := cache_wait_in_wait filename ("ngfd_pulse_" ++ printf_s sound_id) env.waits
    env.upload_state { priv with upload_file := some filename }
  unfold pulse_plugin_priv_cache_file
  cases hopen : env.sf_open filename with
  | none => simp [finished_count, play_count, cache_file_count, Action.is_play_sample,
      Action.is_cache_file]
  | some info =>
    simp only
    split
    · simp [finished_count, play_count, cache_file_count, Action.is_play_sample,
        Action.is_cache_file]
    · split
      · simp [finished_count, play_count, cache_file_count, Action.is_play_sample,
          Action.is_cache_file]
      · split
        · simp [finished_count, play_count, cache_file_count, Action.is_play_sample,
            Action.is_cache_file]
        · split <;>
            simp only [finished_count_append, play_count_append, cache_file_count_append,
              finished_count_in_wait _ hw, play_count_in_wait _ hw,
              cache_file_count_in_wait _ hw] <;>
            simp [finished_count, play_count, cache_file_count, Action.is_play_sample,
              Action.is_cache_file]

theorem cache_file_isSome (priv : PulsePluginPriv) (filename : String)
    (sound_id : Option String) (env : CacheEnv) (h : priv.cached_files.isSome = true) :
    (pulse_plugin_priv_cache_file priv filename sound_id env).priv.cached_files.isSome
      = true := by
  have hw := cache_wait_isSome filename ("ngfd_pulse_" ++ printf_s sound_id) env.waits
    env.upload_state { priv with upload_file := some filename } h
  unfold pulse_plugin_priv_cache_file
  cases hopen : env.sf_open filename with
  | none => exact h
  | some info =>
    simp only
    split
    · exact h
    · split
      · exact h
      · split
        · exact h
        · split <;> exact hw

theorem cache_file_well_formed (priv : PulsePluginPriv) (filename : String)
    (sound_id : Option String) (env : CacheEnv) (h : well_formed priv) :
    well_formed (pulse_plugin_priv_cache_file priv filename sound_id env).priv := by
  have hw := cache_wait_well_formed filename ("ngfd_pulse_" ++ printf_s sound_id) env.waits
    env.upload_state { priv with upload_file := some filename } h
  unfold pulse_plugin_priv_cache_file
  cases hopen : env.sf_open filename with
  | none => exact h
  | some info =>
    simp only
    split
    · exact h
    · split
      · exact h
      · split
        · exact h
        · split <;> exact hw

theorem cache_file_returns (priv : PulsePluginPriv) (filename : String)
    (sound_id : Option String) (env : CacheEnv)
    (h : ∃ s ∈ stream_polls env.waits env.upload_state,
      s = PA_STREAM_FAILED ∨ s = PA_STREAM_TERMINATED) :
    (pulse_plugin_priv_cache_file priv filename sound_id env).blocked = false := by
  have hw := cache_wait_returns filename ("ngfd_pulse_" ++ printf_s sound_id) env.waits
    env.upload_state { priv with upload_file := some filename } h
  unfold pulse_plugin_priv_cache_file
  cases hopen : env.sf_open filename with
  | none => rfl
  | some info =>
    simp only
    split
    · rfl
    · split
      · rfl
      · split
        · rfl
        · split
          · rename_i hb; rw [hw] at hb; simp at hb
          · rfl

/-- Where a poll of the upload stream can occur in the trace of
`pulse_plugin_priv_cache_file`: only in its wait loop, which is then reached. -/
theorem cache_file_poll (priv : PulsePluginPriv) (filename : String)
    (sound_id : Option String) (env : CacheEnv) (s : pa_stream_state_t)
    (h : Action.stream_get_state s
      ∈ (pulse_plugin_priv_cache_file priv filename sound_id env).trace) :
    (∃ info, env.sf_open filename = some info ∧ accepted info)
    ∧ env.stream_new = true ∧ 0 ≤ env.connect_upload_ret
    ∧ Action.stream_get_state s
      ∈ (pulse_plugin_priv_cache_file_wait filename ("ngfd_pulse_" ++ printf_s sound_id)
          env.waits env.upload_state { priv with upload_file := some filename }).trace := by
  unfold pulse_plugin_priv_cache_file at h
  cases hopen : env.sf_open filename with
  | none => simp [hopen] at h
  | some info =>
    simp only [hopen] at h
    split at h
    · simp at h
    · rename_i hfmt
      split at h
      · simp at h
      · rename_i hnew
        split at h
        · simp at h
        · rename_i hret
          refine ⟨⟨info, rfl, ?_⟩, by simpa using hnew, by omega, ?_⟩
          · unfold accepted
            constructor
            · by_contra hc; exact hfmt (Or.inl hc)
            · by_contra hc; exact hfmt (Or.inr hc)
          · split at h <;> simpa using h

/-- The whole function on the path through the wait loop. -/
theorem cache_file_loop (priv : PulsePluginPriv) (filename : String)
    (sound_id : Option String) (env : CacheEnv) (info : SF_INFO)
    (hopen : env.sf_open filename = some info) (hacc : accepted info)
    (hnew : env.stream_new = true) (hret : 0 ≤ env.connect_upload_ret) :
    (pulse_plugin_priv_cache_file priv filename sound_id env).blocked
      = (pulse_plugin_priv_cache_file_wait filename ("ngfd_pulse_" ++ printf_s sound_id)
          env.waits env.upload_state { priv with upload_file := some filename }).blocked
    ∧ (pulse_plugin_priv_cache_file priv filename sound_id env).success
      = (pulse_plugin_priv_cache_file_wait filename ("ngfd_pulse_" ++ printf_s sound_id)
          env.waits env.upload_state { priv with upload_file := some filename }).success
    ∧ (pulse_plugin_priv_cache_file priv filename sound_id env).priv.cached_files
      = (pulse_plugin_priv_cache_file_wait filename ("ngfd_pulse_" ++ printf_s sound_id)
          env.waits env.upload_state
          { priv with upload_file := some filename }).priv.cached_files := by
  unfold pulse_plugin_priv_cache_file
  have h1 : ¬ (info.format &&& SF_FORMAT_TYPEMASK ≠ SF_FORMAT_WAV
      ∨ info.format &&& SF_FORMAT_SUBMASK ≠ SF_FORMAT_PCM_16) := by
    unfold accepted at hacc
    simp [hacc.1, hacc.2]
  have h2 : ¬ env.connect_upload_ret < 0 := by omega
  simp only [hopen, h1, hnew, h2, if_false, Bool.not_true, Bool.false_eq_true]
  split
  · exact ⟨by simp [*], rfl, rfl⟩
  · exact ⟨by simp [*], rfl, rfl⟩

theorem cache_file_terminated (priv : PulsePluginPriv) (filename : String)
    (sound_id : Option String) (env : CacheEnv)
    (h : Action.stream_get_state PA_STREAM_TERMINATED
      ∈ (pulse_plugin_priv_cache_file priv filename sound_id env).trace) :
    (pulse_plugin_priv_cache_file priv filename sound_id env).blocked = false
    ∧ (pulse_plugin_priv_cache_file priv filename sound_id env).success = true
    ∧ (priv.cached_files.isSome = true →
        g_hash_table_lookup
          (pulse_plugin_priv_cache_file priv filename sound_id env).priv.cached_files filename
          = some ("ngfd_pulse_" ++ printf_s sound_id))
    ∧ ((∀ evs ∈ env.waits, no_ready evs) →
        (pulse_plugin_priv_cache_file priv filename sound_id env).priv.cached_files
          = g_hash_table_insert priv.cached_files filename
              ("ngfd_pulse_" ++ printf_s sound_id)) := by
  obtain ⟨⟨info, hopen, hacc⟩, hnew, hret, hw⟩ := cache_file_poll priv filename sound_id env _ h
  obtain ⟨l1, l2, l3⟩ := cache_file_loop priv filename sound_id env info hopen hacc hnew hret
  obtain ⟨w1, w2, w3, w4⟩ := cache_wait_terminated filename
    ("ngfd_pulse_" ++ printf_s sound_id) env.waits env.upload_state
    { priv with upload_file := some filename } hw
  rw [l1, l2, l3]
  exact ⟨w1, w2, w3, w4⟩

theorem cache_file_failed (priv : PulsePluginPriv) (filename : String)
    (sound_id : Option String) (env : CacheEnv)
    (h : Action.stream_get_state PA_STREAM_FAILED
      ∈ (pulse_plugin_priv_cache_file priv filename sound_id env).trace) :
    (pulse_plugin_priv_cache_file priv filename sound_id env).blocked = false
    ∧ (pulse_plugin_priv_cache_file priv filename sound_id env).success = false
    ∧ ((∀ evs ∈ env.waits, no_ready evs) →
        (pulse_plugin_priv_cache_file priv filename sound_id env).priv.cached_files
          = priv.cached_files) := by
  obtain ⟨⟨info, hopen, hacc⟩, hnew, hret, hw⟩ := cache_file_poll priv filename sound_id env _ h
  obtain ⟨l1, l2, l3⟩ := cache_file_loop priv filename sound_id env info hopen hacc hnew hret
  obtain ⟨w1, w2, w3⟩ := cache_wait_failed filename
    ("ngfd_pulse_" ++ printf_s sound_id) env.waits env.upload_state
    { priv with upload_file := some filename } hw
  rw [l1, l2, l3]
  exact ⟨w1, w2, w3⟩

/-- The failure returns of `pulse_plugin_priv_cache_file` before the wait loop. -/
theorem cache_file_early_failure (priv : PulsePluginPriv) (filename : String)
    (sound_id : Option String) (env : CacheEnv)
    (h : env.sf_open filename = none ∨ (∃ info, env.sf_open filename = some info ∧ ¬ accepted info)
      ∨ env.stream_new = false ∨ env.connect_upload_ret < 0) :
    (pulse_plugin_priv_cache_file priv filename sound_id env).blocked = false
    ∧ (pulse_plugin_priv_cache_file priv filename sound_id env).success = false
    ∧ (pulse_plugin_priv_cache_file priv filename sound_id env).priv = priv := by
  unfold pulse_plugin_priv_cache_file
  cases hopen : env.sf_open filename with
  | none => exact ⟨rfl, rfl, rfl⟩
  | some info =>
    simp only
    split
    · exact ⟨rfl, rfl, rfl⟩
    · rename_i hfmt
      split
      · exact ⟨rfl, rfl, rfl⟩
      · rename_i hnew
        split
        · exact ⟨rfl, rfl, rfl⟩
        · rename_i hret
          exfalso
          rcases h with h | ⟨info2, h, hn⟩ | h | h
          · rw [hopen] at h; cases h
          · rw [hopen] at h; cases h
            apply hn
            unfold accepted
            constructor
            · by_contra hc; exact hfmt (Or.inl hc)
            · by_contra hc; exact hfmt (Or.inr hc)
          · rw [h] at hnew; simp at hnew
          · exact hret h

/-! ## Lemmas: the upload size -/

theorem upload_size_eq (size_bits : Nat) (frames : Int) (hb : 32 ≤ size_bits)
    (h0 : 0 ≤ frames) (h1 : frames * 2 < 4294967296) :
    (upload_size size_bits frames : Int) = if frames * 2 < 2048 then 2048 else frames * 2 := by
  have hw : wrap_int64 (frames * 2) = frames * 2 := by
    unfold wrap_int64; omega
  have hp : (4294967296 : Int) ≤ (2 : Int) ^ size_bits := by
    have : (2 : Int) ^ 32 ≤ (2 : Int) ^ size_bits :=
      pow_le_pow_right₀ (by norm_num) hb
    simpa using this
  unfold upload_size to_unsigned MAX MINIMUM_STREAM_SIZE
  rw [hw]
  split
  · rename_i hlt
    have hlt2 : frames * 2 < 2048 := by omega
    rw [Int.emod_eq_of_lt (by norm_num) (by omega)]
    rfl
  · rename_i hge
    have hge2 : ¬ frames * 2 < 2048 := by omega
    rw [Int.emod_eq_of_lt (by omega) (by omega)]
    exact Int.toNat_of_nonneg (by omega)

/-- The size passed to `pa_stream_connect_upload` is `upload_size` of the frame count
of the opened file. -/
theorem cache_file_upload_size (priv : PulsePluginPriv) (filename : String)
    (sound_id : Option String) (env : CacheEnv) (size : Nat) (ret : Int)
    (h : Action.stream_connect_upload size ret
      ∈ (pulse_plugin_priv_cache_file priv filename sound_id env).trace) :
    ∃ info, env.sf_open filename = some info ∧ accepted info
      ∧ size = upload_size env.size_bits info.frames := by
  have hw := cache_wait_in_wait filename ("ngfd_pulse_" ++ printf_s sound_id) env.waits
    env.upload_state { priv with upload_file := some filename }
  unfold pulse_plugin_priv_cache_file at h
  cases hopen : env.sf_open filename with
  | none => simp [hopen] at h
  | some info =>
    simp only [hopen] at h
    split at h
    · simp at h
    · rename_i hfmt
      have hacc : accepted info := by
        unfold accepted
        constructor
        · by_contra hc; exact hfmt (Or.inl hc)
        · by_contra hc; exact hfmt (Or.inr hc)
      split at h
      · simp at h
      · split at h
        · simp at h
          exact ⟨info, rfl, hacc, h.1⟩
        · split at h
          all_goals
            simp only [List.mem_append, List.mem_cons, List.mem_singleton, List.not_mem_nil,
              or_false, reduceCtorEq, false_or, or_false, Action.stream_connect_upload.injEq] at h
            rcases h with h | h
            · exact ⟨info, rfl, hacc, h.1⟩
            · have := hw _ h
              simp [Action.in_wait] at this

/-- An accepted file for which the stream is created reaches `pa_stream_connect_upload`. -/
theorem cache_file_connects_upload (priv : PulsePluginPriv) (filename : String)
    (sound_id : Option String) (env : CacheEnv) (info : SF_INFO)
    (hopen : env.sf_open filename = some info) (hacc : accepted info)
    (hnew : env.stream_new = true) :
    Action.stream_connect_upload (upload_size env.size_bits info.frames) env.connect_upload_ret
      ∈ (pulse_plugin_priv_cache_file priv filename sound_id env).trace := by
  unfold pulse_plugin_priv_cache_file
  have h1 : ¬ (info.format &&& SF_FORMAT_TYPEMASK ≠ SF_FORMAT_WAV
      ∨ info.format &&& SF_FORMAT_SUBMASK ≠ SF_FORMAT_PCM_16) := by
    unfold accepted at hacc
    simp [hacc.1, hacc.2]
  simp only [hopen, h1, hnew, if_false, Bool.not_true, Bool.false_eq_true]
  split
  · simp
  · split <;> simp

/-! ## Lemmas: `pulse_plugin_priv_play` -/

/-- The run of `pulse_plugin_priv_play` on a valid connection with the sample cached:
no wait is entered. -/
theorem play_cached (priv : PulsePluginPriv) (data : PulsePluginData) (finished_cb : Bool)
    (env : PlayEnv) (name : String) (hv : priv.valid = true)
    (hc : g_hash_table_lookup priv.cached_files (resolved_path data.filename) = some name)
    (hf : env.file_test (resolved_path data.filename) = true) :
    pulse_plugin_priv_play priv data finished_cb env
      = { priv := (play_submit priv true (resolved_path data.filename) env.play_op).1,
          trace := [Action.file_test (resolved_path data.filename) true, Action.mainloop_lock,
              Action.hash_table_lookup (resolved_path data.filename) (some name)]
            ++ (play_submit priv true (resolved_path data.filename) env.play_op).2
            ++ [Action.mainloop_unlock] ++ play_cleanup finished_cb,
          blocked := false } := by
  simp [pulse_plugin_priv_play, hv, hc, hf]

theorem play_cleanup_play_count (finished_cb : Bool) : play_count (play_cleanup finished_cb) = 0 := by
  cases finished_cb <;> simp [play_cleanup, play_count, Action.is_play_sample]

theorem play_cleanup_cache_file_count (finished_cb : Bool) :
    cache_file_count (play_cleanup finished_cb) = 0 := by
  cases finished_cb <;> simp [play_cleanup, cache_file_count, Action.is_cache_file]

theorem play_cleanup_finished_count (finished_cb : Bool) :
    finished_count (play_cleanup finished_cb) = if finished_cb then 1 else 0 := by
  cases finished_cb <;> simp [play_cleanup, finished_count]

theorem play_submit_counts (priv : PulsePluginPriv) (can_play : Bool) (fn : String)
    (play_op : Bool) :
    finished_count (play_submit priv can_play fn play_op).2 = 0
    ∧ cache_file_count (play_submit priv can_play fn play_op).2 = 0
    ∧ (play_submit priv can_play fn play_op).1.cached_files = priv.cached_files
    ∧ (play_submit priv can_play fn play_op).1.valid = priv.valid := by
  unfold play_submit
  split
  · simp [finished_count, cache_file_count]
  · split
    · simp [finished_count, cache_file_count]
    · split
      · simp [finished_count, cache_file_count]
      · split <;> simp [finished_count, cache_file_count, Action.is_cache_file]

/-- The function `pulse_plugin_priv_play` in terms of its steps. -/
theorem play_steps (priv : PulsePluginPriv) (data : PulsePluginData)
    (finished_cb : Bool) (env : PlayEnv) :
    pulse_plugin_priv_play priv data finished_cb env
      = if !env.file_test (resolved_path data.filename) then
          { priv := priv,
            trace := [Action.file_test (resolved_path data.filename) false]
              ++ play_cleanup finished_cb,
            blocked := false }
        else if (play_connect_step priv env).blocked then
          { play_connect_step priv env with
            trace := [Action.file_test (resolved_path data.filename) true, Action.mainloop_lock]
              ++ (play_connect_step priv env).trace }
        else if (play_cache_step (play_connect_step priv env).priv data env).blocked then
          { priv := (play_cache_step (play_connect_step priv env).priv data env).priv,
            trace := [Action.file_test (resolved_path data.filename) true, Action.mainloop_lock]
              ++ (play_connect_step priv env).trace
              ++ [Action.hash_table_lookup (resolved_path data.filename)
                (g_hash_table_lookup (play_connect_step priv env).priv.cached_files
                  (resolved_path data.filename))]
              ++ (play_cache_step (play_connect_step priv env).priv data env).trace,
            blocked := true }
        else
          { priv := (play_submit (play_cache_step (play_connect_step priv env).priv data env).priv
              (play_cache_step (play_connect_step priv env).priv data env).success
              (resolved_path data.filename) env.play_op).1,
            trace := [Action.file_test (resolved_path data.filename) true, Action.mainloop_lock]
              ++ (play_connect_step priv env).trace
              ++ [Action.hash_table_lookup (resolved_path data.filename)
                (g_hash_table_lookup (play_connect_step priv env).priv.cached_files
                  (resolved_path data.filename))]
              ++ (play_cache_step (play_connect_step priv env).priv data env).trace
              ++ (play_submit (play_cache_step (play_connect_step priv env).priv data env).priv
                (play_cache_step (play_connect_step priv env).priv data env).success
                (resolved_path data.filename) env.play_op).2
              ++ [Action.mainloop_unlock] ++ play_cleanup finished_cb,
            blocked := false } := by
  rfl

theorem play_connect_step_counts (priv : PulsePluginPriv) (env : PlayEnv) :
    finished_count (play_connect_step priv env).trace = 0
    ∧ play_count (play_connect_step priv env).trace = 0
    ∧ cache_file_count (play_connect_step priv env).trace = 0 := by
  unfold play_connect_step
  cases priv.valid
  · simpa using connect_counts priv env.connect
  · simp [finished_count, play_count, cache_file_count]

theorem play_cache_step_counts (priv : PulsePluginPriv) (data : PulsePluginData)
    (env : PlayEnv) :
    finished_count (play_cache_step priv data env).trace = 0
    ∧ play_count (play_cache_step priv data env).trace = 0
    ∧ cache_file_count (play_cache_step priv data env).trace
      = if (g_hash_table_lookup priv.cached_files (resolved_path data.filename)).isNone
        then 1 else 0 := by
  unfold play_cache_step
  split
  · exact cache_file_counts _ _ _ _
  · simp [finished_count, play_count, cache_file_count]

theorem finished_count_play (priv : PulsePluginPriv) (data : PulsePluginData)
    (finished_cb : Bool) (env : PlayEnv) :
    finished_count (pulse_plugin_priv_play priv data finished_cb env).trace
      = if (pulse_plugin_priv_play priv data finished_cb env).blocked then 0
        else if finished_cb then 1 else 0 := by
  rw [play_steps]
  have h1 := (play_connect_step_counts priv env).1
  have h2 := (play_cache_step_counts (play_connect_step priv env).priv data env).1
  have h3 := (play_submit_counts (play_cache_step (play_connect_step priv env).priv data env).priv
    (play_cache_step (play_connect_step priv env).priv data env).success
    (resolved_path data.filename) env.play_op).1
  split
  · simp only [finished_count_append, play_cleanup_finished_count]
    simp [finished_count]
  · split
    · rename_i hb
      simp only [finished_count_append, h1, hb, if_true]
      simp [finished_count]
    · split
      · simp only [finished_count_append, h1, h2, if_true]
        simp [finished_count]
      · simp only [finished_count_append, h1, h2, h3, play_cleanup_finished_count]
        simp [finished_count]

theorem play_returns (priv : PulsePluginPriv) (data : PulsePluginData)
    (finished_cb : Bool) (env : PlayEnv)
    (hc : env.connect.context_new = true → ∃ s ∈ context_polls env.connect.waits
        (context_state_after env.connect.connect_events PA_CONTEXT_UNCONNECTED),
      s = PA_CONTEXT_READY ∨ s = PA_CONTEXT_FAILED ∨ s = PA_CONTEXT_TERMINATED)
    (hu : ∃ s ∈ stream_polls env.cache.waits env.cache.upload_state,
      s = PA_STREAM_FAILED ∨ s = PA_STREAM_TERMINATED) :
    (pulse_plugin_priv_play priv data finished_cb env).blocked = false := by
  have h1 : (play_connect_step priv env).blocked = false := by
    unfold play_connect_step
    split
    · exact connect_returns priv env.connect hc
    · rfl
  have h2 : (play_cache_step (play_connect_step priv env).priv data env).blocked = false := by
    unfold play_cache_step
    split
    · exact cache_file_returns _ _ _ _ hu
    · rfl
  rw [play_steps]
  split
  · rfl
  · simp only [h1, h2, Bool.false_eq_true, if_false]

theorem play_connect_step_valid (priv : PulsePluginPriv) (env : PlayEnv)
    (hv : priv.valid = true) :
    play_connect_step priv env = { priv := priv, trace := [], blocked := false } := by
  simp [play_connect_step, hv]

theorem play_connect_step_no_ready (priv : PulsePluginPriv) (env : PlayEnv)
    (h : env.connect.no_ready) :
    (play_connect_step priv env).priv.cached_files = priv.cached_files := by
  unfold play_connect_step
  split
  · exact connect_no_ready priv env.connect h
  · rfl

theorem play_submit_no_poll (priv : PulsePluginPriv) (can_play : Bool) (fn : String)
    (play_op : Bool) (s : pa_stream_state_t) :
    Action.stream_get_state s ∉ (play_submit priv can_play fn play_op).2 := by
  unfold play_submit
  split
  · simp
  · split
    · simp
    · split
      · simp
      · split <;> simp

theorem play_cleanup_no_poll (finished_cb : Bool) (s : pa_stream_state_t) :
    Action.stream_get_state s ∉ play_cleanup finished_cb := by
  cases finished_cb <;> simp [play_cleanup]

theorem cache_file_count_play (priv : PulsePluginPriv) (data : PulsePluginData)
    (finished_cb : Bool) (env : PlayEnv) :
    cache_file_count (pulse_plugin_priv_play priv data finished_cb env).trace
      = if env.file_test (resolved_path data.filename) = true
          ∧ (play_connect_step priv env).blocked = false
          ∧ (g_hash_table_lookup (play_connect_step priv env).priv.cached_files
              (resolved_path data.filename)).isNone = true
        then 1 else 0 := by
  rw [play_steps]
  have h1 := (play_connect_step_counts priv env).2.2
  have h2 := (play_cache_step_counts (play_connect_step priv env).priv data env).2.2
  have h3 := (play_submit_counts (play_cache_step (play_connect_step priv env).priv data env).priv
    (play_cache_step (play_connect_step priv env).priv data env).success
    (resolved_path data.filename) env.play_op).2.1
  cases hf : env.file_test (resolved_path data.filename)
  · simp only [Bool.not_false, if_true, cache_file_count_append, play_cleanup_cache_file_count]
    simp [cache_file_count, Action.is_cache_file]
  · cases hb : (play_connect_step priv env).blocked
    · simp only [Bool.not_true, Bool.false_eq_true, if_false, true_and]
      split
      · simp only [cache_file_count_append, h1, h2]
        simp [cache_file_count, Action.is_cache_file]
      · simp only [cache_file_count_append, h1, h2, h3, play_cleanup_cache_file_count]
        simp [cache_file_count, Action.is_cache_file]
    · simp only [Bool.not_true, Bool.false_eq_true, if_false, if_true, cache_file_count_append,
        h1, false_and, true_and]
      simp [cache_file_count, Action.is_cache_file]

/-- On a valid connection a poll of the upload stream in the trace of
`pulse_plugin_priv_play` comes from the upload of a missed sample. -/
theorem play_valid_poll (priv : PulsePluginPriv) (data : PulsePluginData)
    (finished_cb : Bool) (env : PlayEnv) (s : pa_stream_state_t) (hv : priv.valid = true)
    (h : Action.stream_get_state s ∈ (pulse_plugin_priv_play priv data finished_cb env).trace) :
    env.file_test (resolved_path data.filename) = true
    ∧ (g_hash_table_lookup priv.cached_files (resolved_path data.filename)).isNone = true
    ∧ Action.stream_get_state s
      ∈ (pulse_plugin_priv_cache_file priv (resolved_path data.filename) data.filename
          env.cache).trace
    ∧ (pulse_plugin_priv_play priv data finished_cb env).blocked
      = (pulse_plugin_priv_cache_file priv (resolved_path data.filename) data.filename
          env.cache).blocked
    ∧ (pulse_plugin_priv_play priv data finished_cb env).priv.cached_files
      = (pulse_plugin_priv_cache_file priv (resolved_path data.filename) data.filename
          env.cache).priv.cached_files := by
  rw [play_steps] at h ⊢
  rw [play_connect_step_valid priv env hv] at h ⊢
  cases hf : env.file_test (resolved_path data.filename)
  · simp only [hf, Bool.not_false, if_true, List.mem_append, List.mem_singleton,
      reduceCtorEq, false_or] at h
    exact absurd h (play_cleanup_no_poll _ _)
  · simp only [hf, Bool.not_true, Bool.false_eq_true, if_false] at h ⊢
    cases hl : g_hash_table_lookup priv.cached_files (resolved_path data.filename) with
    | some name =>
      exfalso
      simp only [play_cache_step, hl, Option.isNone_some, Bool.false_eq_true, if_false,
        List.mem_append, List.mem_cons, List.mem_singleton, List.not_mem_nil,
        reduceCtorEq, false_or, or_false] at h
      rcases h with h | h
      · exact play_submit_no_poll _ _ _ _ _ h
      · exact play_cleanup_no_poll _ _ h
    | none =>
      simp only [play_cache_step, hl, Option.isNone_none, if_true] at h ⊢
      refine ⟨trivial, trivial, ?_⟩
      cases hub : (pulse_plugin_priv_cache_file priv (resolved_path data.filename)
          data.filename env.cache).blocked
      · simp only [hub, Bool.false_eq_true, if_false, List.mem_append, List.mem_cons,
          List.mem_singleton, List.not_mem_nil, reduceCtorEq, false_or, or_false] at h ⊢
        refine ⟨?_, trivial, (play_submit_counts _ _ _ _).2.2.1⟩
        rcases h with ((h | h) | h)
        · exact h
        · exact absurd h (play_submit_no_poll _ _ _ _ _)
        · exact absurd h (play_cleanup_no_poll _ _)
      · simp only [hub, if_true, List.mem_append, List.mem_cons,
          List.mem_singleton, List.not_mem_nil, reduceCtorEq, false_or, or_false] at h ⊢
        exact ⟨h, trivial, trivial⟩

theorem in_wait_in_connect (a : Action) (h : a.in_wait = true) : a.in_connect = true := by
  cases a <;> simp_all [Action.in_wait, Action.in_connect]

theorem connect_in_connect (priv : PulsePluginPriv) (env : ConnectEnv) :
    ∀ a ∈ (pulse_plugin_priv_connect priv env).trace, a.in_connect = true := by
  have hw := connect_wait_in_wait env.waits
    (context_state_after env.connect_events PA_CONTEXT_UNCONNECTED)
  have hd := run_callbacks_in_wait env.disconnect_events priv
  have hc := run_callbacks_in_wait env.connect_events
  intro a ha
  unfold pulse_plugin_priv_connect at ha
  cases hctx : priv.context <;> cases hnew : env.context_new <;>
    simp only [hctx, hnew, if_true, if_false, Bool.false_eq_true, List.mem_append,
      List.mem_cons, List.mem_singleton, List.not_mem_nil, or_false, List.nil_append] at ha
  · subst ha; rfl
  · rcases ha with ((ha | ha) | ha) | ha
    · subst ha; rfl
    · subst ha; rfl
    · exact in_wait_in_connect a (hc _ a ha)
    · exact in_wait_in_connect a (hw _ a ha)
  · rcases ha with ((ha | ha) | ha) | ha
    · subst ha; rfl
    · exact in_wait_in_connect a (hd a ha)
    · subst ha; rfl
    · subst ha; rfl
  · rcases ha with ((((ha | ha) | ha) | (ha | ha)) | ha) | ha
    · subst ha; rfl
    · exact in_wait_in_connect a (hd a ha)
    · subst ha; rfl
    · subst ha; rfl
    · subst ha; rfl
    · exact in_wait_in_connect a (hc _ a ha)
    · exact in_wait_in_connect a (hw _ a ha)

theorem play_connect_step_no_lookup (priv : PulsePluginPriv) (env : PlayEnv)
    (key : String) (found : Option String) :
    Action.hash_table_lookup key found ∉ (play_connect_step priv env).trace := by
  unfold play_connect_step
  split
  · intro h
    have := connect_in_connect priv env.connect _ h
    simp [Action.in_connect, Action.in_wait] at this
  · simp

theorem play_submit_no_lookup (priv : PulsePluginPriv) (can_play : Bool) (fn : String)
    (play_op : Bool) (key : String) (found : Option String) :
    Action.hash_table_lookup key found ∉ (play_submit priv can_play fn play_op).2 := by
  unfold play_submit
  split
  · simp
  · split
    · simp
    · split
      · simp
      · split <;> simp

theorem play_cleanup_no_lookup (finished_cb : Bool) (key : String) (found : Option String) :
    Action.hash_table_lookup key found ∉ play_cleanup finished_cb := by
  cases finished_cb <;> simp [play_cleanup]

/-- The run of `pulse_plugin_priv_play` when the lookup after the reconnect step hits:
its only cache lookup is that hit, and it returns if the reconnect step does. -/
theorem play_hit_lookup (priv : PulsePluginPriv) (data : PulsePluginData)
    (finished_cb : Bool) (env : PlayEnv) (name : String)
    (hl : g_hash_table_lookup (play_connect_step priv env).priv.cached_files
      (resolved_path data.filename) = some name) :
    (∀ key found, Action.hash_table_lookup key found
        ∈ (pulse_plugin_priv_play priv data finished_cb env).trace →
      key = resolved_path data.filename ∧ found = some name)
    ∧ (env.file_test (resolved_path data.filename) = true →
        (play_connect_step priv env).blocked = false →
        (pulse_plugin_priv_play priv data finished_cb env).blocked = false
        ∧ Action.hash_table_lookup (resolved_path data.filename) (some name)
          ∈ (pulse_plugin_priv_play priv data finished_cb env).trace) := by
  have hstep : play_cache_step (play_connect_step priv env).priv data env
      = { priv := (play_connect_step priv env).priv, success := true, trace := [],
          blocked := false } := by
    simp [play_cache_step, hl]
  rw [play_steps, hstep]
  cases hf : env.file_test (resolved_path data.filename)
  · simp only [Bool.not_false, if_true, Bool.false_eq_true, false_implies, and_true]
    intro key found h
    simp only [List.mem_append, List.mem_singleton, reduceCtorEq, false_or] at h
    exact absurd h (play_cleanup_no_lookup _ _ _)
  · cases hb : (play_connect_step priv env).blocked
    · simp only [Bool.not_true, Bool.false_eq_true, if_false, hl, true_implies]
      refine ⟨fun key found h => ?_, trivial, by simp⟩
      simp only [List.mem_append, List.mem_cons, List.mem_singleton, List.not_mem_nil,
        reduceCtorEq, false_or, or_false, Action.hash_table_lookup.injEq] at h
      rcases h with ((h | h) | h) | h
      · exact absurd h (play_connect_step_no_lookup _ _ _ _)
      · exact h
      · exact absurd h (play_submit_no_lookup _ _ _ _ _ _)
      · exact absurd h (play_cleanup_no_lookup _ _ _)
    · simp only [Bool.not_true, Bool.false_eq_true, if_false, if_true]
      refine ⟨fun key found h => ?_, fun _ hft => by simp at hft⟩
      simp only [List.mem_append, List.mem_cons, List.mem_singleton, List.not_mem_nil,
        reduceCtorEq, false_or, or_false] at h
      exact absurd h (play_connect_step_no_lookup _ _ _ _)

/-! ## The invariant `well_formed` -/

theorem priv_initial_well_formed : well_formed priv_initial := by
  decide

/-- Every run of `pulse_plugin_priv_play` keeps the table in existence while the
connection is marked valid. -/
theorem play_well_formed (priv : PulsePluginPriv) (data : PulsePluginData)
    (finished_cb : Bool) (env : PlayEnv) (h : well_formed priv) :
    well_formed (pulse_plugin_priv_play priv data finished_cb env).priv := by
  have h1 : well_formed (play_connect_step priv env).priv := by
    unfold play_connect_step
    split
    · exact connect_well_formed priv env.connect h
    · exact h
  have h2 : well_formed (play_cache_step (play_connect_step priv env).priv data env).priv := by
    unfold play_cache_step
    split
    · exact cache_file_well_formed _ _ _ _ h1
    · exact h1
  rw [play_steps]
  split
  · exact h
  · split
    · exact h1
    · split
      · exact h2
      · unfold well_formed at h2 ⊢
        simp only [(play_submit_counts _ _ _ _).2.2.1, (play_submit_counts _ _ _ _).2.2.2]
        exact h2

/-! ## Claims -/

/-- C6: for every plugin state, after `context_state_callback` runs with the
context in state Ready, `cached_files` exists and is empty and `valid` is TRUE;
the other fields are untouched. -/
theorem context_ready_resets_cache (priv : PulsePluginPriv) :
    (context_state_callback PA_CONTEXT_READY priv).cached_files = some []
    ∧ (context_state_callback PA_CONTEXT_READY priv).valid = true
    ∧ (context_state_callback PA_CONTEXT_READY priv).queued_samples = priv.queued_samples
    ∧ (context_state_callback PA_CONTEXT_READY priv).upload_file = priv.upload_file
    ∧ (context_state_callback PA_CONTEXT_READY priv).context = priv.context := by
  simp [context_state_callback]

/-- C7: when the resolved path does not exist, `pulse_plugin_priv_play` returns with
the plugin state unchanged, and its only library calls are the file test and the
finished callback: no lock, no reconnect, no cache lookup, no upload, no server
play call. -/
theorem play_missing_file_touches_nothing (priv : PulsePluginPriv) (data : PulsePluginData)
    (finished_cb : Bool) (env : PlayEnv)
    (h : env.file_test (resolved_path data.filename) = false) :
    (pulse_plugin_priv_play priv data finished_cb env).priv = priv
    ∧ (pulse_plugin_priv_play priv data finished_cb env).blocked = false
    ∧ (pulse_plugin_priv_play priv data finished_cb env).trace
      = Action.file_test (resolved_path data.filename) false :: play_cleanup finished_cb
    ∧ Action.mainloop_lock ∉ (pulse_plugin_priv_play priv data finished_cb env).trace
    ∧ (∀ ok, Action.context_new ok ∉ (pulse_plugin_priv_play priv data finished_cb env).trace)
    ∧ (∀ key found, Action.hash_table_lookup key found
        ∉ (pulse_plugin_priv_play priv data finished_cb env).trace)
    ∧ cache_file_count (pulse_plugin_priv_play priv data finished_cb env).trace = 0
    ∧ play_count (pulse_plugin_priv_play priv data finished_cb env).trace = 0 := by
  cases finished_cb <;>
    simp [pulse_plugin_priv_play, h, play_cleanup, cache_file_count, play_count,
      Action.is_cache_file, Action.is_play_sample]

theorem play_missing_file_touches_nothing_witness :
    play_env_missing.file_test (resolved_path data_click.filename) = false
    ∧ (pulse_plugin_priv_play priv_cached data_click true play_env_missing).priv = priv_cached
    ∧ (pulse_plugin_priv_play priv_cached data_click true play_env_missing).trace
      = [Action.file_test (resolved_path data_click.filename) false, Action.finished_cb] :=
  ⟨rfl, (play_missing_file_touches_nothing priv_cached data_click true play_env_missing rfl).1,
    (play_missing_file_touches_nothing priv_cached data_click true play_env_missing rfl).2.2.1⟩

/-- C10 (as stated, refuted): from the counter value 0 the completion callback
`play_sample_callback` leaves -1, not max(0, 0 - 1) = 0. -/
theorem queued_samples_goes_negative :
    (play_sample_callback 0 priv_ready).queued_samples = -1
    ∧ (play_sample_callback 0 priv_ready).queued_samples
      ≠ max 0 (priv_ready.queued_samples - 1) := by
  decide

/-- C10 (amended): `play_sample_callback` decrements `queued_samples` by exactly one,
whatever its value; the result is max(0, old - 1), and non-negative, when the old
value is at least 1. -/
theorem play_sample_callback_decrements (index : Nat) (priv : PulsePluginPriv)
    (hlo : -2147483648 < priv.queued_samples) (hhi : priv.queued_samples ≤ 2147483647) :
    (play_sample_callback index priv).queued_samples = priv.queued_samples - 1
    ∧ (1 ≤ priv.queued_samples →
        (play_sample_callback index priv).queued_samples = max 0 (priv.queued_samples - 1)
        ∧ 0 ≤ (play_sample_callback index priv).queued_samples) := by
  have h : (play_sample_callback index priv).queued_samples = priv.queued_samples - 1 := by
    simp only [play_sample_callback, wrap_int]
    omega
  refine ⟨h, fun h1 => ?_⟩
  rw [h]
  exact ⟨(max_eq_right (by omega)).symm, by omega⟩

theorem play_sample_callback_decrements_witness :
    (-2147483648 < priv_ready.queued_samples ∧ priv_ready.queued_samples ≤ 2147483647)
    ∧ (play_sample_callback PA_INVALID_INDEX priv_ready).queued_samples
      = priv_ready.queued_samples - 1 :=
  ⟨by decide,
    (play_sample_callback_decrements PA_INVALID_INDEX priv_ready (by decide) (by decide)).1⟩

/-- C9: for every accepted 2-channel file with n frames, the size that
`pulse_plugin_priv_cache_file` passes to `pa_stream_connect_upload` is 2048 when
n * 2 < 2048 and n * 2 otherwise; it is 2048 for n = 100 and 20000 for n = 10000. -/
theorem upload_size_stereo (priv : PulsePluginPriv) (filename : String)
    (sound_id : Option String) (env : CacheEnv) (info : SF_INFO)
    (hopen : env.sf_open filename = some info) (hacc : accepted info)
    (_hch : info.channels = 2) (hb : 32 ≤ env.size_bits)
    (h0 : 0 ≤ info.frames) (h1 : info.frames * 2 < 4294967296) :
    (env.stream_new = true → ∃ size, Action.stream_connect_upload size env.connect_upload_ret
        ∈ (pulse_plugin_priv_cache_file priv filename sound_id env).trace)
    ∧ ∀ size ret, Action.stream_connect_upload size ret
        ∈ (pulse_plugin_priv_cache_file priv filename sound_id env).trace →
      (size : Int) = (if info.frames * 2 < MINIMUM_STREAM_SIZE then MINIMUM_STREAM_SIZE
        else info.frames * 2)
      ∧ (info.frames = 100 → size = 2048)
      ∧ (info.frames = 10000 → size = 10000 * 2) := by
  refine ⟨fun hnew => ⟨_, cache_file_connects_upload priv filename sound_id env info hopen
    hacc hnew⟩, fun size ret h => ?_⟩
  obtain ⟨info2, ho, _, hs⟩ := cache_file_upload_size priv filename sound_id env size ret h
  rw [hopen] at ho
  cases ho
  have hs2 := upload_size_eq env.size_bits info.frames hb h0 h1
  rw [← hs] at hs2
  refine ⟨by simpa [MINIMUM_STREAM_SIZE] using hs2, fun hf => ?_, fun hf => ?_⟩
  · rw [hf] at hs2; norm_num at hs2; exact_mod_cast hs2
  · rw [hf] at hs2; norm_num at hs2; exact_mod_cast hs2

theorem upload_size_stereo_witness :
    accepted (wav_info 100 2)
    ∧ upload_size (cache_env_terminated (wav_info 100 2)).size_bits (wav_info 100 2).frames
      = 2048 :=
  ⟨by decide,
    ((upload_size_stereo priv_ready "/usr/share/sounds/jolla-ambient/stereo/click.wav"
      (some "click") (cache_env_terminated (wav_info 100 2)) (wav_info 100 2) rfl (by decide)
      rfl (by decide) (by decide) (by decide)).2 _ _
      (cache_file_connects_upload priv_ready "/usr/share/sounds/jolla-ambient/stereo/click.wav"
        (some "click") (cache_env_terminated (wav_info 100 2)) (wav_info 100 2) rfl (by decide)
        rfl)).2.1 rfl⟩

/-- C8 (as stated, refuted): for an accepted file with 10000 frames and 2 channels
`pulse_plugin_priv_cache_file` passes the size 20000 to `pa_stream_connect_upload`,
while max(MINIMUM_STREAM_SIZE, n * (c * 2)) is 40000. -/
theorem upload_size_ignores_channels :
    accepted (wav_info 10000 2)
    ∧ Action.stream_connect_upload 20000 0
      ∈ (pulse_plugin_priv_cache_file priv_ready
          "/usr/share/sounds/jolla-ambient/stereo/click.wav" (some "click")
          (cache_env_terminated (wav_info 10000 2))).trace
    ∧ (20000 : Int) ≠ max MINIMUM_STREAM_SIZE
        ((wav_info 10000 2).frames * ((wav_info 10000 2).channels * 2)) := by
  decide

/-- C8 (amended): for every accepted file with n frames, whatever its channel count,
the size passed to `pa_stream_connect_upload` is max(MINIMUM_STREAM_SIZE, n * 2) with
MINIMUM_STREAM_SIZE = 2048; this is max(MINIMUM_STREAM_SIZE, n * (c * 2)) when the
channel count c is 1. -/
theorem upload_size_is_two_bytes_per_frame (priv : PulsePluginPriv) (filename : String)
    (sound_id : Option String) (env : CacheEnv) (info : SF_INFO)
    (hopen : env.sf_open filename = some info) (hacc : accepted info)
    (hb : 32 ≤ env.size_bits) (h0 : 0 ≤ info.frames) (h1 : info.frames * 2 < 4294967296) :
    MINIMUM_STREAM_SIZE = 2048
    ∧ (env.stream_new = true → ∃ size, Action.stream_connect_upload size env.connect_upload_ret
        ∈ (pulse_plugin_priv_cache_file priv filename sound_id env).trace)
    ∧ ∀ size ret, Action.stream_connect_upload size ret
        ∈ (pulse_plugin_priv_cache_file priv filename sound_id env).trace →
      (size : Int) = max MINIMUM_STREAM_SIZE (info.frames * 2)
      ∧ (info.channels = 1 →
          (size : Int) = max MINIMUM_STREAM_SIZE (info.frames * (info.channels * 2))) := by
  refine ⟨rfl, fun hnew => ⟨_, cache_file_connects_upload priv filename sound_id env info hopen
    hacc hnew⟩, fun size ret h => ?_⟩
  obtain ⟨info2, ho, _, hs⟩ := cache_file_upload_size priv filename sound_id env size ret h
  rw [hopen] at ho
  cases ho
  have hs2 := upload_size_eq env.size_bits info.frames hb h0 h1
  rw [← hs] at hs2
  have hm : (size : Int) = max MINIMUM_STREAM_SIZE (info.frames * 2) := by
    rw [hs2]
    unfold MINIMUM_STREAM_SIZE
    split
    · exact (max_eq_left (by omega)).symm
    · exact (max_eq_right (by omega)).symm
  refine ⟨hm, fun hc => ?_⟩
  rw [hm, hc]
  norm_num

theorem upload_size_is_two_bytes_per_frame_witness :
    accepted (wav_info 10000 2)
    ∧ (upload_size (cache_env_terminated (wav_info 10000 2)).size_bits
        (wav_info 10000 2).frames : Int)
      = max MINIMUM_STREAM_SIZE ((wav_info 10000 2).frames * 2) :=
  ⟨by decide,
    ((upload_size_is_two_bytes_per_frame priv_ready
      "/usr/share/sounds/jolla-ambient/stereo/click.wav" (some "click")
      (cache_env_terminated (wav_info 10000 2)) (wav_info 10000 2) rfl (by decide)
      (by decide) (by decide) (by decide)).2.2 _ _
      (cache_file_connects_upload priv_ready "/usr/share/sounds/jolla-ambient/stereo/click.wav"
        (some "click") (cache_env_terminated (wav_info 10000 2)) (wav_info 10000 2) rfl
        (by decide) rfl)).1⟩

/-- C1 (the code at the failing input): `pulse_sink_prepare` stores
`sound_enabled = FALSE` for a request with `sound.volume` = 0, and `pulse_sink_play`
still issues the server play call when the sample is cached and runs
`pulse_plugin_priv_cache_file`, then plays, when it is not; the run of
`pulse_plugin_priv_play` never depends on `sound_enabled`. -/
theorem muted_request_is_played :
    (pulse_sink_prepare props_click_muted).sound_enabled = false
    ∧ play_count (pulse_sink_play priv_cached (pulse_sink_prepare props_click_muted)
        play_env_ok).trace = 1
    ∧ cache_file_count (pulse_sink_play priv_ready (pulse_sink_prepare props_click_muted)
        play_env_ok).trace = 1
    ∧ play_count (pulse_sink_play priv_ready (pulse_sink_prepare props_click_muted)
        play_env_ok).trace = 1
    ∧ ∀ (priv : PulsePluginPriv) (data : PulsePluginData) (enabled finished_cb : Bool)
        (env : PlayEnv),
      pulse_plugin_priv_play priv { data with sound_enabled := enabled } finished_cb env
        = pulse_plugin_priv_play priv data finished_cb env := by
  refine ⟨by decide, by decide, by decide, by decide, ?_⟩
  intro priv data enabled finished_cb env
  rfl

/-- C3: with MAX_QUEUED_SAMPLES = 0, from a valid connection with in-flight count 0
and the samples cached: a first `pulse_plugin_priv_play` whose submission succeeds
issues the server play call and raises the count to 1; a second one, before
`play_sample_callback` has run, issues no server play call and changes nothing; and
after `play_sample_callback` has run once the next one issues the server play call. -/
theorem queue_gate_admits_one_at_a_time (priv : PulsePluginPriv)
    (data1 data2 data3 : PulsePluginData) (cb1 cb2 cb3 : Bool) (env1 env2 env3 : PlayEnv)
    (index : Nat) (name1 name2 name3 : String)
    (hv : priv.valid = true) (hq : priv.queued_samples = 0)
    (hc1 : g_hash_table_lookup priv.cached_files (resolved_path data1.filename) = some name1)
    (hc2 : g_hash_table_lookup priv.cached_files (resolved_path data2.filename) = some name2)
    (hc3 : g_hash_table_lookup priv.cached_files (resolved_path data3.filename) = some name3)
    (hf1 : env1.file_test (resolved_path data1.filename) = true)
    (hf2 : env2.file_test (resolved_path data2.filename) = true)
    (hf3 : env3.file_test (resolved_path data3.filename) = true)
    (hop : env1.play_op = true) :
    MAX_QUEUED_SAMPLES = 0
    ∧ (pulse_plugin_priv_play priv data1 cb1 env1).blocked = false
    ∧ Action.play_sample (some name1) true ∈ (pulse_plugin_priv_play priv data1 cb1 env1).trace
    ∧ play_count (pulse_plugin_priv_play priv data1 cb1 env1).trace = 1
    ∧ (pulse_plugin_priv_play priv data1 cb1 env1).priv.queued_samples = 1
    ∧ (pulse_plugin_priv_play (pulse_plugin_priv_play priv data1 cb1 env1).priv
        data2 cb2 env2).blocked = false
    ∧ play_count (pulse_plugin_priv_play (pulse_plugin_priv_play priv data1 cb1 env1).priv
        data2 cb2 env2).trace = 0
    ∧ (pulse_plugin_priv_play (pulse_plugin_priv_play priv data1 cb1 env1).priv
        data2 cb2 env2).priv = (pulse_plugin_priv_play priv data1 cb1 env1).priv
    ∧ (pulse_plugin_priv_play
        (play_sample_callback index
          (pulse_plugin_priv_play (pulse_plugin_priv_play priv data1 cb1 env1).priv
            data2 cb2 env2).priv)
        data3 cb3 env3).blocked = false
    ∧ Action.play_sample (some name3) env3.play_op
      ∈ (pulse_plugin_priv_play
        (play_sample_callback index
          (pulse_plugin_priv_play (pulse_plugin_priv_play priv data1 cb1 env1).priv
            data2 cb2 env2).priv)
        data3 cb3 env3).trace
    ∧ play_count (pulse_plugin_priv_play
        (play_sample_callback index
          (pulse_plugin_priv_play (pulse_plugin_priv_play priv data1 cb1 env1).priv
            data2 cb2 env2).priv)
        data3 cb3 env3).trace = 1 := by
  have e1 := play_cached priv data1 cb1 env1 name1 hv hc1 hf1
  have s1 : play_submit priv true (resolved_path data1.filename) env1.play_op
      = ({ priv with queued_samples := 1 },
        [Action.play_sample (some name1) true, Action.operation_unref]) := by
    simp [play_submit, hv, hq, hop, hc1, MAX_QUEUED_SAMPLES, wrap_int]
  rw [s1] at e1
  have e2 := play_cached { priv with queued_samples := 1 } data2 cb2 env2 name2 hv hc2 hf2
  have s2 : play_submit { priv with queued_samples := 1 } true (resolved_path data2.filename)
      env2.play_op = ({ priv with queued_samples := 1 }, []) := by
    simp [play_submit, hv, MAX_QUEUED_SAMPLES]
  rw [s2] at e2
  have e3 := play_cached (play_sample_callback index { priv with queued_samples := 1 })
    data3 cb3 env3 name3 hv hc3 hf3
  have s3 : (play_submit (play_sample_callback index { priv with queued_samples := 1 }) true
      (resolved_path data3.filename) env3.play_op).2
      = if env3.play_op then [Action.play_sample (some name3) true, Action.operation_unref]
        else [Action.play_sample (some name3) false] := by
    cases env3.play_op <;>
      simp [play_submit, play_sample_callback, hv, hc3, MAX_QUEUED_SAMPLES, wrap_int]
  rw [e1]
  simp only
  rw [e2]
  simp only
  rw [e3, s3]
  simp only [play_count_append, play_cleanup_play_count]
  refine ⟨rfl, ?_⟩
  cases env3.play_op <;> simp [play_count, Action.is_play_sample]

theorem queue_gate_admits_one_at_a_time_witness :
    (priv_cached.valid = true ∧ priv_cached.queued_samples = 0
      ∧ g_hash_table_lookup priv_cached.cached_files (resolved_path data_click.filename)
        = some "ngfd_pulse_click"
      ∧ play_env_ok.file_test (resolved_path data_click.filename) = true
      ∧ play_env_ok.play_op = true)
    ∧ (pulse_plugin_priv_play priv_cached data_click true play_env_ok).priv.queued_samples = 1 :=
  ⟨by decide,
    (queue_gate_admits_one_at_a_time priv_cached data_click data_click data_click true true true
      play_env_ok play_env_ok play_env_ok 7 "ngfd_pulse_click" "ngfd_pulse_click"
      "ngfd_pulse_click" rfl rfl (by decide) (by decide) (by decide) rfl rfl rfl rfl).2.2.2.2.1⟩

/-- C2: one call of `pulse_plugin_priv_play` with a non-NULL finished callback (as
`pulse_sink_play` makes it) invokes the callback exactly once when it returns, on
every path, and never before it returns; and it returns whenever the polls of each
wait it can enter reach a final state. -/
theorem finished_cb_invoked_exactly_once (priv : PulsePluginPriv) (data : PulsePluginData)
    (env : PlayEnv) :
    (finished_count (pulse_plugin_priv_play priv data true env).trace
      = if (pulse_plugin_priv_play priv data true env).blocked then 0 else 1)
    ∧ (finished_count (pulse_sink_play priv data env).trace
      = if (pulse_sink_play priv data env).blocked then 0 else 1)
    ∧ ((env.connect.context_new = true → ∃ s ∈ context_polls env.connect.waits
          (context_state_after env.connect.connect_events PA_CONTEXT_UNCONNECTED),
          s = PA_CONTEXT_READY ∨ s = PA_CONTEXT_FAILED ∨ s = PA_CONTEXT_TERMINATED) →
        (∃ s ∈ stream_polls env.cache.waits env.cache.upload_state,
          s = PA_STREAM_FAILED ∨ s = PA_STREAM_TERMINATED) →
        (pulse_plugin_priv_play priv data true env).blocked = false
        ∧ finished_count (pulse_plugin_priv_play priv data true env).trace = 1) := by
  have h := finished_count_play priv data true env
  simp only [if_true] at h
  refine ⟨h, h, fun hc hu => ?_⟩
  have hb := play_returns priv data true env hc hu
  refine ⟨hb, ?_⟩
  rw [h, hb]
  rfl

theorem finished_cb_invoked_exactly_once_witness :
    (∃ s ∈ context_polls play_env_ok.connect.waits
        (context_state_after play_env_ok.connect.connect_events PA_CONTEXT_UNCONNECTED),
        s = PA_CONTEXT_READY ∨ s = PA_CONTEXT_FAILED ∨ s = PA_CONTEXT_TERMINATED)
    ∧ (∃ s ∈ stream_polls play_env_ok.cache.waits play_env_ok.cache.upload_state,
        s = PA_STREAM_FAILED ∨ s = PA_STREAM_TERMINATED)
    ∧ finished_count (pulse_plugin_priv_play priv_ready data_click true play_env_ok).trace = 1 :=
  ⟨⟨PA_CONTEXT_READY, by decide, Or.inl rfl⟩, ⟨PA_STREAM_TERMINATED, by decide, Or.inr rfl⟩,
    ((finished_cb_invoked_exactly_once priv_ready data_click play_env_ok).2.2
      (fun _ => ⟨PA_CONTEXT_READY, by decide, Or.inl rfl⟩)
      ⟨PA_STREAM_TERMINATED, by decide, Or.inr rfl⟩).2⟩

/-- C5: a call of `pulse_plugin_priv_cache_file` on an existing table, with no Ready
transition of the context delivered while it waits: if it observes the stream state
Terminated it returns TRUE and `cached_files` differs from before by exactly the entry
filename -> "ngfd_pulse_" ++ sound_id; if it observes Failed it returns FALSE and
`cached_files` is unchanged; every failure return before the wait loop (open error,
unsupported format, stream creation or upload-connect failure) returns FALSE and
leaves the whole plugin state unchanged. -/
theorem cache_file_outcomes (priv : PulsePluginPriv) (filename sound_id : String)
    (env : CacheEnv) :
    (Action.stream_get_state PA_STREAM_TERMINATED
        ∈ (pulse_plugin_priv_cache_file priv filename (some sound_id) env).trace →
      priv.cached_files.isSome = true → (∀ evs ∈ env.waits, no_ready evs) →
      (pulse_plugin_priv_cache_file priv filename (some sound_id) env).blocked = false
      ∧ (pulse_plugin_priv_cache_file priv filename (some sound_id) env).success = true
      ∧ (pulse_plugin_priv_cache_file priv filename (some sound_id) env).priv.cached_files
        = g_hash_table_insert priv.cached_files filename ("ngfd_pulse_" ++ sound_id)
      ∧ ∀ key, g_hash_table_lookup
          (pulse_plugin_priv_cache_file priv filename (some sound_id) env).priv.cached_files key
        = if key = filename then some ("ngfd_pulse_" ++ sound_id)
          else g_hash_table_lookup priv.cached_files key)
    ∧ (Action.stream_get_state PA_STREAM_FAILED
        ∈ (pulse_plugin_priv_cache_file priv filename (some sound_id) env).trace →
      (∀ evs ∈ env.waits, no_ready evs) →
      (pulse_plugin_priv_cache_file priv filename (some sound_id) env).blocked = false
      ∧ (pulse_plugin_priv_cache_file priv filename (some sound_id) env).success = false
      ∧ (pulse_plugin_priv_cache_file priv filename (some sound_id) env).priv.cached_files
        = priv.cached_files)
    ∧ (env.sf_open filename = none
        ∨ (∃ info, env.sf_open filename = some info ∧ ¬ accepted info)
        ∨ env.stream_new = false ∨ env.connect_upload_ret < 0 →
      (pulse_plugin_priv_cache_file priv filename (some sound_id) env).blocked = false
      ∧ (pulse_plugin_priv_cache_file priv filename (some sound_id) env).success = false
      ∧ (pulse_plugin_priv_cache_file priv filename (some sound_id) env).priv = priv) := by
  refine ⟨fun h hs hno => ?_, fun h hno => ?_, fun h => ?_⟩
  · obtain ⟨h1, h2, _, h4⟩ := cache_file_terminated priv filename (some sound_id) env h
    have h5 := h4 hno
    simp only [printf_s, Option.getD_some] at h5
    refine ⟨h1, h2, h5, fun key => ?_⟩
    rw [h5, lookup_insert _ _ _ _ hs]
  · obtain ⟨h1, h2, h3⟩ := cache_file_failed priv filename (some sound_id) env h
    exact ⟨h1, h2, h3 hno⟩
  · exact cache_file_early_failure priv filename (some sound_id) env h

theorem cache_file_outcomes_witness :
    (Action.stream_get_state PA_STREAM_TERMINATED
        ∈ (pulse_plugin_priv_cache_file priv_ready
            "/usr/share/sounds/jolla-ambient/stereo/click.wav" (some "click")
            (cache_env_terminated (wav_info 10000 2))).trace
      ∧ (pulse_plugin_priv_cache_file priv_ready
            "/usr/share/sounds/jolla-ambient/stereo/click.wav" (some "click")
            (cache_env_terminated (wav_info 10000 2))).priv.cached_files
        = g_hash_table_insert priv_ready.cached_files
            "/usr/share/sounds/jolla-ambient/stereo/click.wav" ("ngfd_pulse_" ++ "click"))
    ∧ (Action.stream_get_state PA_STREAM_FAILED
        ∈ (pulse_plugin_priv_cache_file priv_cached
            "/usr/share/sounds/jolla-ambient/stereo/click.wav" (some "click")
            (cache_env_failed (wav_info 10000 2))).trace
      ∧ (pulse_plugin_priv_cache_file priv_cached
            "/usr/share/sounds/jolla-ambient/stereo/click.wav" (some "click")
            (cache_env_failed (wav_info 10000 2))).priv.cached_files = priv_cached.cached_files)
    ∧ (cache_env_no_file.sf_open "/usr/share/sounds/jolla-ambient/stereo/click.wav" = none
      ∧ (pulse_plugin_priv_cache_file priv_cached
            "/usr/share/sounds/jolla-ambient/stereo/click.wav" (some "click")
            cache_env_no_file).priv = priv_cached) :=
  ⟨⟨by decide,
      ((cache_file_outcomes priv_ready "/usr/share/sounds/jolla-ambient/stereo/click.wav"
        "click" (cache_env_terminated (wav_info 10000 2))).1 (by decide) (by decide)
        (by decide)).2.2.1⟩,
    ⟨by decide,
      ((cache_file_outcomes priv_cached "/usr/share/sounds/jolla-ambient/stereo/click.wav"
        "click" (cache_env_failed (wav_info 10000 2))).2.1 (by decide) (by decide)).2.2⟩,
    ⟨rfl,
      ((cache_file_outcomes priv_cached "/usr/share/sounds/jolla-ambient/stereo/click.wav"
        "click" cache_env_no_file).2.2 (Or.inl rfl)).2.2⟩⟩

/-- C4: on a valid connection, when a first `pulse_plugin_priv_play` of a file runs
an upload whose stream is observed Terminated, and no callback between the calls or
during the second call reports a Ready context, the two calls together run
`pulse_plugin_priv_cache_file` exactly once: the first call once, the second never,
because every cache lookup of the second call is a hit on the uploaded sample. -/
theorem same_file_uploaded_once (priv : PulsePluginPriv) (data : PulsePluginData)
    (cb1 cb2 : Bool) (env1 env2 : PlayEnv) (between : List Event)
    (hv : priv.valid = true) (hwf : well_formed priv)
    (hterm : Action.stream_get_state PA_STREAM_TERMINATED
      ∈ (pulse_plugin_priv_play priv data cb1 env1).trace)
    (hbetween : no_ready between) (hno : env2.connect.no_ready) :
    (pulse_plugin_priv_play priv data cb1 env1).blocked = false
    ∧ cache_file_count (pulse_plugin_priv_play priv data cb1 env1).trace = 1
    ∧ cache_file_count (pulse_plugin_priv_play
        (run_callbacks between (pulse_plugin_priv_play priv data cb1 env1).priv).1
        data cb2 env2).trace = 0
    ∧ cache_file_count ((pulse_plugin_priv_play priv data cb1 env1).trace
        ++ (pulse_plugin_priv_play
          (run_callbacks between (pulse_plugin_priv_play priv data cb1 env1).priv).1
          data cb2 env2).trace) = 1
    ∧ (∀ key found, Action.hash_table_lookup key found
        ∈ (pulse_plugin_priv_play
          (run_callbacks between (pulse_plugin_priv_play priv data cb1 env1).priv).1
          data cb2 env2).trace →
        key = resolved_path data.filename
        ∧ found = some ("ngfd_pulse_" ++ printf_s data.filename))
    ∧ (env2.file_test (resolved_path data.filename) = true →
        (play_connect_step
          (run_callbacks between (pulse_plugin_priv_play priv data cb1 env1).priv).1
          env2).blocked = false →
        (pulse_plugin_priv_play
          (run_callbacks between (pulse_plugin_priv_play priv data cb1 env1).priv).1
          data cb2 env2).blocked = false
        ∧ Action.hash_table_lookup (resolved_path data.filename)
            (some ("ngfd_pulse_" ++ printf_s data.filename))
          ∈ (pulse_plugin_priv_play
            (run_callbacks between (pulse_plugin_priv_play priv data cb1 env1).priv).1
            data cb2 env2).trace) := by
  obtain ⟨hf, hmiss, hin, hbl, hcf⟩ := play_valid_poll priv data cb1 env1 _ hv hterm
  obtain ⟨c1, _, c3, _⟩ := cache_file_terminated priv (resolved_path data.filename)
    data.filename env1.cache hin
  have hb1 : (pulse_plugin_priv_play priv data cb1 env1).blocked = false := by rw [hbl, c1]
  have hcount1 : cache_file_count (pulse_plugin_priv_play priv data cb1 env1).trace = 1 := by
    rw [cache_file_count_play, play_connect_step_valid priv env1 hv]
    simp [hf, hmiss]
  have hl2 : g_hash_table_lookup
      (play_connect_step
        (run_callbacks between (pulse_plugin_priv_play priv data cb1 env1).priv).1
        env2).priv.cached_files (resolved_path data.filename)
      = some ("ngfd_pulse_" ++ printf_s data.filename) := by
    rw [play_connect_step_no_ready _ _ hno, run_callbacks_no_ready _ _ hbetween, hcf]
    exact c3 (hwf hv)
  have hcount2 : cache_file_count (pulse_plugin_priv_play
      (run_callbacks between (pulse_plugin_priv_play priv data cb1 env1).priv).1
      data cb2 env2).trace = 0 := by
    rw [cache_file_count_play, hl2]
    simp
  obtain ⟨k1, k2⟩ := play_hit_lookup
    (run_callbacks between (pulse_plugin_priv_play priv data cb1 env1).priv).1
    data cb2 env2 _ hl2
  refine ⟨hb1, hcount1, hcount2, ?_, k1, k2⟩
  rw [cache_file_count_append, hcount1, hcount2]

theorem same_file_uploaded_once_witness :
    (priv_ready.valid = true ∧ well_formed priv_ready
      ∧ Action.stream_get_state PA_STREAM_TERMINATED
        ∈ (pulse_plugin_priv_play priv_ready data_click true play_env_ok).trace
      ∧ no_ready [Event.play_sample 0] ∧ play_env_offline.connect.no_ready)
    ∧ cache_file_count ((pulse_plugin_priv_play priv_ready data_click true play_env_ok).trace
        ++ (pulse_plugin_priv_play
          (run_callbacks [Event.play_sample 0]
            (pulse_plugin_priv_play priv_ready data_click true play_env_ok).priv).1
          data_click true play_env_offline).trace) = 1 :=
  ⟨by decide,
    (same_file_uploaded_once priv_ready data_click true true play_env_ok play_env_offline
      [Event.play_sample 0] rfl (by decide) (by decide) (by decide) (by decide)).2.2.2.1⟩

end NgfdPulse
